import Mathlib

/-!
Verification of the Molara scalar-field evaluation and isosurface pipeline.

The Cython sources are embedded shallowly: double-precision arithmetic is
idealised as real arithmetic, C arrays and memoryviews become lists or
functions from indices, and the in-place output buffers become explicitly
threaded state. Every definition mirrors one function of the source tree
(src/molara/eval/aos.pyx, mos.pyx, generate_voxel_grid.pyx,
marchingsquares.pyx, marchingcubes.pyx); the source lines are named in the
doc comments.
-/

namespace Molara

/-! ## Definitions -/

/-- A real 3-vector given by its components, as the sources build one with three scalar assignments. -/
def vec3 (a b c : ℝ) : Fin 3 → ℝ :=
  fun l => if l = 0 then a else if l = 1 then b else c

/-- Constant sqr3 of aos.pyx line 20; the source stores the double-precision value 1.73205080756887729 of the square root of 3, idealised here as the exact root. -/
noncomputable def sqr3 : ℝ := Real.sqrt 3

/-- Constant sqr5 of aos.pyx line 21 (double value 2.236067977499789696). -/
noncomputable def sqr5 : ℝ := Real.sqrt 5

/-- Constant sqr7 of aos.pyx line 22 (double value 2.645751311064591). -/
noncomputable def sqr7 : ℝ := Real.sqrt 7

/-- The radial accumulation loop of calculate_aos (aos.pyx lines 66-68): u is the sum over the ngto = exponents.length primitives of norms[ic] * coefficients[ic] * exp(-exponents[ic] * r2). -/
noncomputable def radial_sum (exponents coefficients norms : List ℝ) (r2 : ℝ) : ℝ :=
  ∑ ic ∈ Finset.range exponents.length,
    norms.getD ic 0 * coefficients.getD ic 0 * Real.exp (-(exponents.getD ic 0) * r2)

/-- Embeds calculate_aos of aos.pyx lines 11-138. The output buffer uao is returned as the list of values written, in buffer-index order; the f and g branches assign through the named index constants of lines 30-55 (fxxx = 0, fyyy = 1, fzzz = 2, fxyy = 3, fxxy = 4, fxxz = 5, fxzz = 6, fyzz = 7, fyyz = 8, fxyz = 9, and likewise the g constants), so each list position below holds the value the source stores at that buffer index. The running rescalings of u (u = sqr5 * u, then u = sqr3 * u, and so on) appear as the lets u1, u2, u3. -/
noncomputable def calculate_aos (electron_coords atom_coords : Fin 3 → ℝ)
    (exponents coefficients norms : List ℝ) (orbital : ℕ) : List ℝ :=
  let relative_coords : Fin 3 → ℝ := fun i => electron_coords i - atom_coords i
  let r2 : ℝ := relative_coords 0 ^ 2 + relative_coords 1 ^ 2 + relative_coords 2 ^ 2
  let u : ℝ := radial_sum exponents coefficients norms r2
  let dx : ℝ := relative_coords 0
  let dy : ℝ := relative_coords 1
  let dz : ℝ := relative_coords 2
  let dx2 : ℝ := dx * dx
  let dy2 : ℝ := dy * dy
  let dz2 : ℝ := dz * dz
  let dxyz : ℝ := dx * dy * dz
  if orbital = 0 then
    [u]
  else if orbital = 1 then
    [dx * u, dy * u, dz * u]
  else if orbital = 2 then
    let u1 := sqr3 * u
    [dx2 * u, dy2 * u, dz2 * u, dx * dy * u1, dx * dz * u1, dy * dz * u1]
  else if orbital = 3 then
    let u1 := sqr5 * u
    let u2 := sqr3 * u1
    [dx2 * dx * u, dy2 * dy * u, dz2 * dz * u,
     dy2 * dx * u1, dx2 * dy * u1, dx2 * dz * u1,
     dz2 * dx * u1, dz2 * dy * u1, dy2 * dz * u1,
     dxyz * u2]
  else if orbital = 4 then
    let u1 := sqr7 * u
    let u2 := sqr5 / sqr3 * u1
    let u3 := sqr3 * u2
    [dx2 * dx2 * u, dy2 * dy2 * u, dz2 * dz2 * u,
     dx2 * dx * dy * u1, dx2 * dx * dz * u1,
     dy2 * dy * dx * u1, dy2 * dy * dz * u1,
     dz2 * dz * dx * u1, dz2 * dz * dy * u1,
     dx2 * dy2 * u2, dx2 * dz2 * u2, dy2 * dz2 * u2,
     dx * dxyz * u3, dy * dxyz * u3, dz * dxyz * u3]
  else
    []

/-- The squared distance between two points, computed inline by mos.pyx lines 38-40 and aos.pyx lines 61-65. -/
def dist_sq (p q : Fin 3 → ℝ) : ℝ :=
  (p 0 - q 0) ^ 2 + (p 1 - q 1) ^ 2 + (p 2 - q 2) ^ 2


/-- The number_of_basis_functions array of mos.pyx lines 7-13: Cartesian component counts for the s, p, d, f, g shells. -/
def number_of_basis_functions (shell : ℕ) : ℕ := [1, 3, 6, 10, 15].getD shell 0

/-- The shell loop of calculate_mo_cartesian (mos.pyx lines 36-54). The 2D Cython arrays indexed by basis-function row become functions from the row index; each recursive step handles one shell, reading its primitive data at row shell_start, skipping it unless distance_sq < cut_off_distances[shell_index] ** 2, and otherwise accumulating mo_coefficients[i] * aos_values[i] over the shell range [shell_start, shell_end). -/
noncomputable def calculate_mo_cartesian_go
    (electron_position : Fin 3 → ℝ)
    (orbital_position : ℕ → Fin 3 → ℝ)
    (orbital_coefficients orbital_exponents orbital_norms : ℕ → List ℝ)
    (mo_coefficients : ℕ → ℝ) (cut_off_distances : ℕ → ℝ) :
    List ℕ → ℕ → ℕ → ℝ
  | [], _, _ => 0
  | shell :: rest, shell_index, shell_start =>
      let distance_sq := dist_sq electron_position (orbital_position shell_start)
      let shell_end := shell_start + number_of_basis_functions shell
      (if distance_sq < cut_off_distances shell_index ^ 2 then
        let aos_values := calculate_aos electron_position (orbital_position shell_start)
          (orbital_exponents shell_start) (orbital_coefficients shell_start)
          (orbital_norms shell_start) shell
        ∑ i ∈ Finset.range (number_of_basis_functions shell),
          mo_coefficients (shell_start + i) * aos_values.getD i 0
      else 0)
      + calculate_mo_cartesian_go electron_position orbital_position orbital_coefficients
          orbital_exponents orbital_norms mo_coefficients cut_off_distances rest
          (shell_index + 1) shell_end

/-- Embeds calculate_mo_cartesian of mos.pyx lines 17-56: the loop starts at shell_index = 0 and shell_start = 0 and returns the accumulated mo_value. -/
noncomputable def calculate_mo_cartesian (electron_position : Fin 3 → ℝ)
    (orbital_position : ℕ → Fin 3 → ℝ)
    (orbital_coefficients orbital_exponents orbital_norms : ℕ → List ℝ)
    (shells : List ℕ) (mo_coefficients : ℕ → ℝ) (cut_off_distances : ℕ → ℝ) : ℝ :=
  calculate_mo_cartesian_go electron_position orbital_position orbital_coefficients
    orbital_exponents orbital_norms mo_coefficients cut_off_distances shells 0 0

/-- The value of shell_start at the t-th iteration of the shell loop of mos.pyx: the sum of the basis-function counts of the earlier shells. -/
def shell_offset (shells : List ℕ) (t : ℕ) : ℕ :=
  ((shells.take t).map number_of_basis_functions).sum

/-- The dot product a non-skipped shell contributes in mos.pyx lines 52-53: molecular-orbital coefficients over the shell range times the atomic-orbital amplitudes of the shell. -/
noncomputable def shell_dot (electron_position : Fin 3 → ℝ)
    (orbital_position : ℕ → Fin 3 → ℝ)
    (orbital_coefficients orbital_exponents orbital_norms : ℕ → List ℝ)
    (mo_coefficients : ℕ → ℝ) (shell shell_start : ℕ) : ℝ :=
  ∑ i ∈ Finset.range (number_of_basis_functions shell),
    mo_coefficients (shell_start + i) *
      (calculate_aos electron_position (orbital_position shell_start)
        (orbital_exponents shell_start) (orbital_coefficients shell_start)
        (orbital_norms shell_start) shell).getD i 0

/-- Modelled from the spec: the fixed Angstrom-to-Bohr conversion constant imported by generate_voxel_grid.pyx line 8 from molara.util.constants, a module not among the provided sources; the spec fixes it as a non-configurable physical constant, so the CODATA value is used. No claim depends on its numeric value. -/
noncomputable def ANGSTROM_TO_BOHR : ℝ := 1.8897261258369282

/-- The electron position computed per cell by voxel_grid_loops (generate_voxel_grid.pyx lines 152-169): the i, j, k multiples of the three voxel-size vectors plus the origin, scaled by ANGSTROM_TO_BOHR. -/
noncomputable def voxel_cell_position
    (voxel_size_i voxel_size_j voxel_size_k origin : Fin 3 → ℝ) (i j k : ℕ) :
    Fin 3 → ℝ :=
  fun l =>
    (voxel_size_i l * i + voxel_size_j l * j + voxel_size_k l * k + origin l) *
      ANGSTROM_TO_BOHR

/-- One assignment voxel_grid[i, j, k] = value of generate_voxel_grid.pyx line 171, as a function update. -/
noncomputable def voxel_grid_write (g : ℕ × ℕ × ℕ → ℝ) (i j k : ℕ) (v : ℝ) :
    ℕ × ℕ × ℕ → ℝ :=
  fun p => if p = (i, j, k) then v else g p

/-- Embeds voxel_grid_loops of generate_voxel_grid.pyx lines 130-181: the triple loop over range(voxel_count) writing calculate_mo_cartesian at each cell. Python range semantics over the int64 counts is Int.toNat: a non-positive count yields zero iterations. -/
noncomputable def voxel_grid_loops
    (voxel_size_i voxel_size_j voxel_size_k : Fin 3 → ℝ)
    (voxel_count_i voxel_count_j voxel_count_k : ℤ)
    (origin : Fin 3 → ℝ)
    (orbital_position : ℕ → Fin 3 → ℝ)
    (orbital_coefficients orbital_exponents orbital_norms : ℕ → List ℝ)
    (shells : List ℕ) (mo_coeff : ℕ → ℝ) (cut_off_distances : ℕ → ℝ)
    (grid0 : ℕ × ℕ × ℕ → ℝ) : ℕ × ℕ × ℕ → ℝ :=
  (List.range voxel_count_i.toNat).foldl (fun g i =>
    (List.range voxel_count_j.toNat).foldl (fun g j =>
      (List.range voxel_count_k.toNat).foldl (fun g k =>
        voxel_grid_write g i j k
          (calculate_mo_cartesian
            (voxel_cell_position voxel_size_i voxel_size_j voxel_size_k origin i j k)
            orbital_position orbital_coefficients orbital_exponents orbital_norms
            shells mo_coeff cut_off_distances)) g) g) grid0

/-- Embeds generate_voxel_grid of generate_voxel_grid.pyx lines 16-125, taking the per-basis-function arrays the wrapper prepares from its Python ao objects (the attribute unpacking and zero padding of lines 44-93 marshal data without changing it; orbital positions arrive already scaled to Bohr per line 70). The numpy allocation at line 35 raises ValueError for a negative dimension, modelled as the error branch; otherwise the grid of line 35 is created and filled by voxel_grid_loops starting from the allocated buffer, taken as all zeros. -/
noncomputable def generate_voxel_grid (origin : Fin 3 → ℝ)
    (voxel_size : Fin 3 → Fin 3 → ℝ) (voxel_count : Fin 3 → ℤ)
    (orbital_position : ℕ → Fin 3 → ℝ)
    (orbital_coefficients orbital_exponents orbital_norms : ℕ → List ℝ)
    (shells : List ℕ) (mo_coeff : ℕ → ℝ) (cut_off_distances : ℕ → ℝ) :
    Except String (ℕ × ℕ × ℕ → ℝ) :=
  if voxel_count 0 < 0 ∨ voxel_count 1 < 0 ∨ voxel_count 2 < 0 then
    Except.error "negative dimensions are not allowed"
  else
    Except.ok (voxel_grid_loops (voxel_size 0) (voxel_size 1) (voxel_size 2)
      (voxel_count 0) (voxel_count 1) (voxel_count 2) origin
      orbital_position orbital_coefficients orbital_exponents orbital_norms
      shells mo_coeff cut_off_distances (fun _ => 0))

/-- The 16-row marching-squares line table of marchingsquares.pyx lines 194-212. -/
def line_table : List (List ℤ) :=
  [[-1, -1, -1, -1],
   [0, 2, -1, -1],
   [0, 1, -1, -1],
   [1, 2, -1, -1],
   [1, 3, -1, -1],
   [0, 1, 2, 3],
   [0, 3, -1, -1],
   [2, 3, -1, -1],
   [2, 3, -1, -1],
   [0, 3, -1, -1],
   [0, 2, 1, 3],
   [1, 3, -1, -1],
   [1, 2, -1, -1],
   [0, 1, -1, -1],
   [0, 2, -1, -1],
   [-1, -1, -1, -1]]

/-- The positive-phase case-index loop of get_edges (marchingsquares.pyx lines 164-166): bit i is set when voxel_values[i] > isovalue. -/
noncomputable def ms_line_table_index_1 (isovalue : ℝ) (voxel_values : ℕ → ℝ) : ℕ :=
  (List.range 4).foldl
    (fun idx i => if voxel_values i > isovalue then idx ||| (1 <<< i) else idx) 0

/-- The negative-phase case-index loop of get_edges (marchingsquares.pyx lines 164-168): bit i is set when voxel_values[i] < -isovalue. -/
noncomputable def ms_line_table_index_2 (isovalue : ℝ) (voxel_values : ℕ → ℝ) : ℕ :=
  (List.range 4).foldl
    (fun idx i => if voxel_values i < -isovalue then idx ||| (1 <<< i) else idx) 0

/-- The positive-phase saddle resolution of marchingsquares.pyx lines 170-175: two sequential (non-exclusive) if statements, so an index of 5 turned into 10 by the first is turned back to 5 by the second. -/
noncomputable def ms_saddle_resolve_1 (isovalue mean : ℝ) (idx0 : ℕ) : ℕ :=
  let idx1 := if idx0 = 5 ∧ mean < isovalue then 10 else idx0
  if idx1 = 10 ∧ mean < isovalue then 5 else idx1

/-- The negative-phase saddle resolution of marchingsquares.pyx lines 176-181, with the mean compared against -isovalue. -/
noncomputable def ms_saddle_resolve_2 (isovalue mean : ℝ) (idx0 : ℕ) : ℕ :=
  let idx1 := if idx0 = 5 ∧ mean > -isovalue then 10 else idx0
  if idx1 = 10 ∧ mean > -isovalue then 5 else idx1

/-- The corner mean of marchingsquares.pyx line 169. -/
noncomputable def ms_mean (voxel_values : ℕ → ℝ) : ℝ :=
  0.25 * (voxel_values 0 + voxel_values 1 + voxel_values 2 + voxel_values 3)

/-- Embeds get_edges of marchingsquares.pyx lines 147-183: the two resolved case indices select rows of line_table. -/
noncomputable def ms_get_edges (isovalue : ℝ) (voxel_values : ℕ → ℝ) :
    List ℤ × List ℤ :=
  (line_table.getD
     (ms_saddle_resolve_1 isovalue (ms_mean voxel_values)
       (ms_line_table_index_1 isovalue voxel_values)) [],
   line_table.getD
     (ms_saddle_resolve_2 isovalue (ms_mean voxel_values)
       (ms_line_table_index_2 isovalue voxel_values)) [])

/-- A concrete saddle cell: corners (2, -2, 2, -2), the case-5 bit pattern for isovalue 1 with corner mean 0. -/
noncomputable def saddle_corners : ℕ → ℝ := fun n => if n % 2 = 0 then 2 else -2

/-- Embeds calculate_interpolation_value of marchingsquares.pyx lines 129-142: the 1e-6 near-equal guard returns 0.5 before the division. -/
noncomputable def ms_calculate_interpolation_value (iso : ℝ) (v1 v2 : ℝ) : ℝ :=
  if |v2 - v1| < 1e-6 then 0.5 else (iso - v1) / (v2 - v1)

/-- Embeds calculate_interpolation_value of marchingcubes.pyx lines 253-264: the bare formula (iso - v1) / (v2 - v1) with no near-equal guard. -/
noncomputable def mc_calculate_interpolation_value (iso : ℝ) (v1 v2 : ℝ) : ℝ :=
  (iso - v1) / (v2 - v1)

/-- The positive-phase case-index loop of get_edges (marchingcubes.pyx lines 355-357). -/
noncomputable def mc_triangle_table_index_1 (isovalue : ℝ) (voxel_values : ℕ → ℝ) : ℕ :=
  (List.range 8).foldl
    (fun idx i => if voxel_values i > isovalue then idx ||| (1 <<< i) else idx) 0

/-- The negative-phase case-index loop of get_edges (marchingcubes.pyx lines 355-359). -/
noncomputable def mc_triangle_table_index_2 (isovalue : ℝ) (voxel_values : ℕ → ℝ) : ℕ :=
  (List.range 8).foldl
    (fun idx i => if voxel_values i < -isovalue then idx ||| (1 <<< i) else idx) 0

/-- The euclidean norm as the sources compute it: sqrt of the sum of squared components (marchingcubes.pyx lines 298 and 331). -/
noncomputable def norm3 (v : Fin 3 → ℝ) : ℝ :=
  Real.sqrt (v 0 * v 0 + v 1 * v 1 + v 2 * v 2)

/-- Division of each component by the norm, as in marchingcubes.pyx lines 299-301 and 332-334. Real division is total: a zero norm divides to zero (IEEE doubles would give NaN there). -/
noncomputable def normalize3 (v : Fin 3 → ℝ) : Fin 3 → ℝ :=
  fun l => v l / norm3 v

/-- Componentwise linear interpolation n1 + t1 * (n2 - n1) of marchingcubes.pyx lines 328-330. -/
def lerp3 (u v : Fin 3 → ℝ) (t : ℝ) : Fin 3 → ℝ :=
  fun l => u l + t * (v l - u l)

/-- A natural-number index triple given by its components. -/
def vecN (a b c : ℕ) : Fin 3 → ℕ :=
  fun l => if l = 0 then a else if l = 1 then b else c

/-- The clamped central-difference gradient of calculate_normal_corner (marchingcubes.pyx lines 283-297). Natural subtraction x - 1 is exactly the max(x - 1, 0) of the source. -/
def mc_gradient (grid : ℕ → ℕ → ℕ → ℝ) (max_x max_y max_z : ℕ) (x y z : ℕ) :
    Fin 3 → ℝ :=
  let x_minus := x - 1
  let x_plus := min (x + 1) (max_x - 1)
  let y_minus := y - 1
  let y_plus := min (y + 1) (max_y - 1)
  let z_minus := z - 1
  let z_plus := min (z + 1) (max_z - 1)
  vec3 (grid x_plus y z - grid x_minus y z)
       (grid x y_plus z - grid x y_minus z)
       (grid x y z_plus - grid x y z_minus)

/-- Embeds calculate_normal_corner of marchingcubes.pyx lines 267-301: the clamped central-difference gradient divided by its norm. -/
noncomputable def calculate_normal_corner (grid : ℕ → ℕ → ℕ → ℝ)
    (max_x max_y max_z : ℕ) (x y z : ℕ) : Fin 3 → ℝ :=
  normalize3 (mc_gradient grid max_x max_y max_z x y z)

/-- Embeds calculate_normal_vertex of marchingcubes.pyx lines 304-334: the two corner normals interpolated by t1, then divided by the norm of the result. -/
noncomputable def calculate_normal_vertex (grid : ℕ → ℕ → ℕ → ℝ)
    (max_x max_y max_z : ℕ) (corner_index_a corner_index_b : Fin 3 → ℕ)
    (t1 : ℝ) : Fin 3 → ℝ :=
  normalize3 (lerp3
    (calculate_normal_corner grid max_x max_y max_z
      (corner_index_a 0) (corner_index_a 1) (corner_index_a 2))
    (calculate_normal_corner grid max_x max_y max_z
      (corner_index_b 0) (corner_index_b 1) (corner_index_b 2)) t1)

/-- A concrete grid whose value is the first index: its central-difference gradients along x are nonzero. -/
noncomputable def ramp_grid : ℕ → ℕ → ℕ → ℝ := fun i _ _ => (i : ℝ)

/-- The 12-entry edge table of marchingcubes.pyx lines 403-418: corner pair per cube edge. -/
def edge_vertex_indices : List (ℕ × ℕ) :=
  [(1, 0), (1, 2), (2, 3), (0, 3), (5, 4), (5, 6), (6, 7), (4, 7),
   (0, 4), (1, 5), (2, 6), (3, 7)]

def triangle_table_rows_0 : List (List ℤ) :=
  [[-1, -1, -1, -1, -1, -1, -1, -1, -1, -1, -1, -1, -1, -1, -1, -1],
   [0, 8, 3, -1, -1, -1, -1, -1, -1, -1, -1, -1, -1, -1, -1, -1],
   [0, 1, 9, -1, -1, -1, -1, -1, -1, -1, -1, -1, -1, -1, -1, -1],
   [1, 8, 3, 9, 8, 1, -1, -1, -1, -1, -1, -1, -1, -1, -1, -1],
   [1, 2, 10, -1, -1, -1, -1, -1, -1, -1, -1, -1, -1, -1, -1, -1],
   [0, 8, 3, 1, 2, 10, -1, -1, -1, -1, -1, -1, -1, -1, -1, -1],
   [9, 2, 10, 0, 2, 9, -1, -1, -1, -1, -1, -1, -1, -1, -1, -1],
   [2, 8, 3, 2, 10, 8, 10, 9, 8, -1, -1, -1, -1, -1, -1, -1],
   [3, 11, 2, -1, -1, -1, -1, -1, -1, -1, -1, -1, -1, -1, -1, -1],
   [0, 11, 2, 8, 11, 0, -1, -1, -1, -1, -1, -1, -1, -1, -1, -1],
   [1, 9, 0, 2, 3, 11, -1, -1, -1, -1, -1, -1, -1, -1, -1, -1],
   [1, 11, 2, 1, 9, 11, 9, 8, 11, -1, -1, -1, -1, -1, -1, -1],
   [3, 10, 1, 11, 10, 3, -1, -1, -1, -1, -1, -1, -1, -1, -1, -1],
   [0, 10, 1, 0, 8, 10, 8, 11, 10, -1, -1, -1, -1, -1, -1, -1],
   [3, 9, 0, 3, 11, 9, 11, 10, 9, -1, -1, -1, -1, -1, -1, -1],
   [9, 8, 10, 10, 8, 11, -1, -1, -1, -1, -1, -1, -1, -1, -1, -1],
   [4, 7, 8, -1, -1, -1, -1, -1, -1, -1, -1, -1, -1, -1, -1, -1],
   [4, 3, 0, 7, 3, 4, -1, -1, -1, -1, -1, -1, -1, -1, -1, -1],
   [0, 1, 9, 8, 4, 7, -1, -1, -1, -1, -1, -1, -1, -1, -1, -1],
   [4, 1, 9, 4, 7, 1, 7, 3, 1, -1, -1, -1, -1, -1, -1, -1],
   [1, 2, 10, 8, 4, 7, -1, -1, -1, -1, -1, -1, -1, -1, -1, -1],
   [3, 4, 7, 3, 0, 4, 1, 2, 10, -1, -1, -1, -1, -1, -1, -1],
   [9, 2, 10, 9, 0, 2, 8, 4, 7, -1, -1, -1, -1, -1, -1, -1],
   [2, 10, 9, 2, 9, 7, 2, 7, 3, 7, 9, 4, -1, -1, -1, -1],
   [8, 4, 7, 3, 11, 2, -1, -1, -1, -1, -1, -1, -1, -1, -1, -1],
   [11, 4, 7, 11, 2, 4, 2, 0, 4, -1, -1, -1, -1, -1, -1, -1],
   [9, 0, 1, 8, 4, 7, 2, 3, 11, -1, -1, -1, -1, -1, -1, -1],
   [4, 7, 11, 9, 4, 11, 9, 11, 2, 9, 2, 1, -1, -1, -1, -1],
   [3, 10, 1, 3, 11, 10, 7, 8, 4, -1, -1, -1, -1, -1, -1, -1],
   [1, 11, 10, 1, 4, 11, 1, 0, 4, 7, 11, 4, -1, -1, -1, -1],
   [4, 7, 8, 9, 0, 11, 9, 11, 10, 11, 0, 3, -1, -1, -1, -1],
   [4, 7, 11, 4, 11, 9, 9, 11, 10, -1, -1, -1, -1, -1, -1, -1]]

def triangle_table_rows_1 : List (List ℤ) :=
  [[9, 5, 4, -1, -1, -1, -1, -1, -1, -1, -1, -1, -1, -1, -1, -1],
   [9, 5, 4, 0, 8, 3, -1, -1, -1, -1, -1, -1, -1, -1, -1, -1],
   [0, 5, 4, 1, 5, 0, -1, -1, -1, -1, -1, -1, -1, -1, -1, -1],
   [8, 5, 4, 8, 3, 5, 3, 1, 5, -1, -1, -1, -1, -1, -1, -1],
   [1, 2, 10, 9, 5, 4, -1, -1, -1, -1, -1, -1, -1, -1, -1, -1],
   [3, 0, 8, 1, 2, 10, 4, 9, 5, -1, -1, -1, -1, -1, -1, -1],
   [5, 2, 10, 5, 4, 2, 4, 0, 2, -1, -1, -1, -1, -1, -1, -1],
   [2, 10, 5, 3, 2, 5, 3, 5, 4, 3, 4, 8, -1, -1, -1, -1],
   [9, 5, 4, 2, 3, 11, -1, -1, -1, -1, -1, -1, -1, -1, -1, -1],
   [0, 11, 2, 0, 8, 11, 4, 9, 5, -1, -1, -1, -1, -1, -1, -1],
   [0, 5, 4, 0, 1, 5, 2, 3, 11, -1, -1, -1, -1, -1, -1, -1],
   [2, 1, 5, 2, 5, 8, 2, 8, 11, 4, 8, 5, -1, -1, -1, -1],
   [10, 3, 11, 10, 1, 3, 9, 5, 4, -1, -1, -1, -1, -1, -1, -1],
   [4, 9, 5, 0, 8, 1, 8, 10, 1, 8, 11, 10, -1, -1, -1, -1],
   [5, 4, 0, 5, 0, 11, 5, 11, 10, 11, 0, 3, -1, -1, -1, -1],
   [5, 4, 8, 5, 8, 10, 10, 8, 11, -1, -1, -1, -1, -1, -1, -1],
   [9, 7, 8, 5, 7, 9, -1, -1, -1, -1, -1, -1, -1, -1, -1, -1],
   [9, 3, 0, 9, 5, 3, 5, 7, 3, -1, -1, -1, -1, -1, -1, -1],
   [0, 7, 8, 0, 1, 7, 1, 5, 7, -1, -1, -1, -1, -1, -1, -1],
   [1, 5, 3, 3, 5, 7, -1, -1, -1, -1, -1, -1, -1, -1, -1, -1],
   [9, 7, 8, 9, 5, 7, 10, 1, 2, -1, -1, -1, -1, -1, -1, -1],
   [10, 1, 2, 9, 5, 0, 5, 3, 0, 5, 7, 3, -1, -1, -1, -1],
   [8, 0, 2, 8, 2, 5, 8, 5, 7, 10, 5, 2, -1, -1, -1, -1],
   [2, 10, 5, 2, 5, 3, 3, 5, 7, -1, -1, -1, -1, -1, -1, -1],
   [7, 9, 5, 7, 8, 9, 3, 11, 2, -1, -1, -1, -1, -1, -1, -1],
   [9, 5, 7, 9, 7, 2, 9, 2, 0, 2, 7, 11, -1, -1, -1, -1],
   [2, 3, 11, 0, 1, 8, 1, 7, 8, 1, 5, 7, -1, -1, -1, -1],
   [11, 2, 1, 11, 1, 7, 7, 1, 5, -1, -1, -1, -1, -1, -1, -1],
   [9, 5, 8, 8, 5, 7, 10, 1, 3, 10, 3, 11, -1, -1, -1, -1],
   [5, 7, 0, 5, 0, 9, 7, 11, 0, 1, 0, 10, 11, 10, 0, -1],
   [11, 10, 0, 11, 0, 3, 10, 5, 0, 8, 0, 7, 5, 7, 0, -1],
   [11, 10, 5, 7, 11, 5, -1, -1, -1, -1, -1, -1, -1, -1, -1, -1]]

def triangle_table_rows_2 : List (List ℤ) :=
  [[10, 6, 5, -1, -1, -1, -1, -1, -1, -1, -1, -1, -1, -1, -1, -1],
   [0, 8, 3, 5, 10, 6, -1, -1, -1, -1, -1, -1, -1, -1, -1, -1],
   [9, 0, 1, 5, 10, 6, -1, -1, -1, -1, -1, -1, -1, -1, -1, -1],
   [1, 8, 3, 1, 9, 8, 5, 10, 6, -1, -1, -1, -1, -1, -1, -1],
   [1, 6, 5, 2, 6, 1, -1, -1, -1, -1, -1, -1, -1, -1, -1, -1],
   [1, 6, 5, 1, 2, 6, 3, 0, 8, -1, -1, -1, -1, -1, -1, -1],
   [9, 6, 5, 9, 0, 6, 0, 2, 6, -1, -1, -1, -1, -1, -1, -1],
   [5, 9, 8, 5, 8, 2, 5, 2, 6, 3, 2, 8, -1, -1, -1, -1],
   [2, 3, 11, 10, 6, 5, -1, -1, -1, -1, -1, -1, -1, -1, -1, -1],
   [11, 0, 8, 11, 2, 0, 10, 6, 5, -1, -1, -1, -1, -1, -1, -1],
   [0, 1, 9, 2, 3, 11, 5, 10, 6, -1, -1, -1, -1, -1, -1, -1],
   [5, 10, 6, 1, 9, 2, 9, 11, 2, 9, 8, 11, -1, -1, -1, -1],
   [6, 3, 11, 6, 5, 3, 5, 1, 3, -1, -1, -1, -1, -1, -1, -1],
   [0, 8, 11, 0, 11, 5, 0, 5, 1, 5, 11, 6, -1, -1, -1, -1],
   [3, 11, 6, 0, 3, 6, 0, 6, 5, 0, 5, 9, -1, -1, -1, -1],
   [6, 5, 9, 6, 9, 11, 11, 9, 8, -1, -1, -1, -1, -1, -1, -1],
   [5, 10, 6, 4, 7, 8, -1, -1, -1, -1, -1, -1, -1, -1, -1, -1],
   [4, 3, 0, 4, 7, 3, 6, 5, 10, -1, -1, -1, -1, -1, -1, -1],
   [1, 9, 0, 5, 10, 6, 8, 4, 7, -1, -1, -1, -1, -1, -1, -1],
   [10, 6, 5, 1, 9, 7, 1, 7, 3, 7, 9, 4, -1, -1, -1, -1],
   [6, 1, 2, 6, 5, 1, 4, 7, 8, -1, -1, -1, -1, -1, -1, -1],
   [1, 2, 5, 5, 2, 6, 3, 0, 4, 3, 4, 7, -1, -1, -1, -1],
   [8, 4, 7, 9, 0, 5, 0, 6, 5, 0, 2, 6, -1, -1, -1, -1],
   [7, 3, 9, 7, 9, 4, 3, 2, 9, 5, 9, 6, 2, 6, 9, -1],
   [3, 11, 2, 7, 8, 4, 10, 6, 5, -1, -1, -1, -1, -1, -1, -1],
   [5, 10, 6, 4, 7, 2, 4, 2, 0, 2, 7, 11, -1, -1, -1, -1],
   [0, 1, 9, 4, 7, 8, 2, 3, 11, 5, 10, 6, -1, -1, -1, -1],
   [9, 2, 1, 9, 11, 2, 9, 4, 11, 7, 11, 4, 5, 10, 6, -1],
   [8, 4, 7, 3, 11, 5, 3, 5, 1, 5, 11, 6, -1, -1, -1, -1],
   [5, 1, 11, 5, 11, 6, 1, 0, 11, 7, 11, 4, 0, 4, 11, -1],
   [0, 5, 9, 0, 6, 5, 0, 3, 6, 11, 6, 3, 8, 4, 7, -1],
   [6, 5, 9, 6, 9, 11, 4, 7, 9, 7, 11, 9, -1, -1, -1, -1]]

def triangle_table_rows_3 : List (List ℤ) :=
  [[10, 4, 9, 6, 4, 10, -1, -1, -1, -1, -1, -1, -1, -1, -1, -1],
   [4, 10, 6, 4, 9, 10, 0, 8, 3, -1, -1, -1, -1, -1, -1, -1],
   [10, 0, 1, 10, 6, 0, 6, 4, 0, -1, -1, -1, -1, -1, -1, -1],
   [8, 3, 1, 8, 1, 6, 8, 6, 4, 6, 1, 10, -1, -1, -1, -1],
   [1, 4, 9, 1, 2, 4, 2, 6, 4, -1, -1, -1, -1, -1, -1, -1],
   [3, 0, 8, 1, 2, 9, 2, 4, 9, 2, 6, 4, -1, -1, -1, -1],
   [0, 2, 4, 4, 2, 6, -1, -1, -1, -1, -1, -1, -1, -1, -1, -1],
   [8, 3, 2, 8, 2, 4, 4, 2, 6, -1, -1, -1, -1, -1, -1, -1],
   [10, 4, 9, 10, 6, 4, 11, 2, 3, -1, -1, -1, -1, -1, -1, -1],
   [0, 8, 2, 2, 8, 11, 4, 9, 10, 4, 10, 6, -1, -1, -1, -1],
   [3, 11, 2, 0, 1, 6, 0, 6, 4, 6, 1, 10, -1, -1, -1, -1],
   [6, 4, 1, 6, 1, 10, 4, 8, 1, 2, 1, 11, 8, 11, 1, -1],
   [9, 6, 4, 9, 3, 6, 9, 1, 3, 11, 6, 3, -1, -1, -1, -1],
   [8, 11, 1, 8, 1, 0, 11, 6, 1, 9, 1, 4, 6, 4, 1, -1],
   [3, 11, 6, 3, 6, 0, 0, 6, 4, -1, -1, -1, -1, -1, -1, -1],
   [6, 4, 8, 11, 6, 8, -1, -1, -1, -1, -1, -1, -1, -1, -1, -1],
   [7, 10, 6, 7, 8, 10, 8, 9, 10, -1, -1, -1, -1, -1, -1, -1],
   [0, 7, 3, 0, 10, 7, 0, 9, 10, 6, 7, 10, -1, -1, -1, -1],
   [10, 6, 7, 1, 10, 7, 1, 7, 8, 1, 8, 0, -1, -1, -1, -1],
   [10, 6, 7, 10, 7, 1, 1, 7, 3, -1, -1, -1, -1, -1, -1, -1],
   [1, 2, 6, 1, 6, 8, 1, 8, 9, 8, 6, 7, -1, -1, -1, -1],
   [2, 6, 9, 2, 9, 1, 6, 7, 9, 0, 9, 3, 7, 3, 9, -1],
   [7, 8, 0, 7, 0, 6, 6, 0, 2, -1, -1, -1, -1, -1, -1, -1],
   [7, 3, 2, 6, 7, 2, -1, -1, -1, -1, -1, -1, -1, -1, -1, -1],
   [2, 3, 11, 10, 6, 8, 10, 8, 9, 8, 6, 7, -1, -1, -1, -1],
   [2, 0, 7, 2, 7, 11, 0, 9, 7, 6, 7, 10, 9, 10, 7, -1],
   [1, 8, 0, 1, 7, 8, 1, 10, 7, 6, 7, 10, 2, 3, 11, -1],
   [11, 2, 1, 11, 1, 7, 10, 6, 1, 6, 7, 1, -1, -1, -1, -1],
   [8, 9, 6, 8, 6, 7, 9, 1, 6, 11, 6, 3, 1, 3, 6, -1],
   [0, 9, 1, 11, 6, 7, -1, -1, -1, -1, -1, -1, -1, -1, -1, -1],
   [7, 8, 0, 7, 0, 6, 3, 11, 0, 11, 6, 0, -1, -1, -1, -1],
   [7, 11, 6, -1, -1, -1, -1, -1, -1, -1, -1, -1, -1, -1, -1, -1]]

def triangle_table_rows_4 : List (List ℤ) :=
  [[7, 6, 11, -1, -1, -1, -1, -1, -1, -1, -1, -1, -1, -1, -1, -1],
   [3, 0, 8, 11, 7, 6, -1, -1, -1, -1, -1, -1, -1, -1, -1, -1],
   [0, 1, 9, 11, 7, 6, -1, -1, -1, -1, -1, -1, -1, -1, -1, -1],
   [8, 1, 9, 8, 3, 1, 11, 7, 6, -1, -1, -1, -1, -1, -1, -1],
   [10, 1, 2, 6, 11, 7, -1, -1, -1, -1, -1, -1, -1, -1, -1, -1],
   [1, 2, 10, 3, 0, 8, 6, 11, 7, -1, -1, -1, -1, -1, -1, -1],
   [2, 9, 0, 2, 10, 9, 6, 11, 7, -1, -1, -1, -1, -1, -1, -1],
   [6, 11, 7, 2, 10, 3, 10, 8, 3, 10, 9, 8, -1, -1, -1, -1],
   [7, 2, 3, 6, 2, 7, -1, -1, -1, -1, -1, -1, -1, -1, -1, -1],
   [7, 0, 8, 7, 6, 0, 6, 2, 0, -1, -1, -1, -1, -1, -1, -1],
   [2, 7, 6, 2, 3, 7, 0, 1, 9, -1, -1, -1, -1, -1, -1, -1],
   [1, 6, 2, 1, 8, 6, 1, 9, 8, 8, 7, 6, -1, -1, -1, -1],
   [10, 7, 6, 10, 1, 7, 1, 3, 7, -1, -1, -1, -1, -1, -1, -1],
   [10, 7, 6, 1, 7, 10, 1, 8, 7, 1, 0, 8, -1, -1, -1, -1],
   [0, 3, 7, 0, 7, 10, 0, 10, 9, 6, 10, 7, -1, -1, -1, -1],
   [7, 6, 10, 7, 10, 8, 8, 10, 9, -1, -1, -1, -1, -1, -1, -1],
   [6, 8, 4, 11, 8, 6, -1, -1, -1, -1, -1, -1, -1, -1, -1, -1],
   [3, 6, 11, 3, 0, 6, 0, 4, 6, -1, -1, -1, -1, -1, -1, -1],
   [8, 6, 11, 8, 4, 6, 9, 0, 1, -1, -1, -1, -1, -1, -1, -1],
   [9, 4, 6, 9, 6, 3, 9, 3, 1, 11, 3, 6, -1, -1, -1, -1],
   [6, 8, 4, 6, 11, 8, 2, 10, 1, -1, -1, -1, -1, -1, -1, -1],
   [1, 2, 10, 3, 0, 11, 0, 6, 11, 0, 4, 6, -1, -1, -1, -1],
   [4, 11, 8, 4, 6, 11, 0, 2, 9, 2, 10, 9, -1, -1, -1, -1],
   [10, 9, 3, 10, 3, 2, 9, 4, 3, 11, 3, 6, 4, 6, 3, -1],
   [8, 2, 3, 8, 4, 2, 4, 6, 2, -1, -1, -1, -1, -1, -1, -1],
   [0, 4, 2, 4, 6, 2, -1, -1, -1, -1, -1, -1, -1, -1, -1, -1],
   [1, 9, 0, 2, 3, 4, 2, 4, 6, 4, 3, 8, -1, -1, -1, -1],
   [1, 9, 4, 1, 4, 2, 2, 4, 6, -1, -1, -1, -1, -1, -1, -1],
   [8, 1, 3, 8, 6, 1, 8, 4, 6, 6, 10, 1, -1, -1, -1, -1],
   [10, 1, 0, 10, 0, 6, 6, 0, 4, -1, -1, -1, -1, -1, -1, -1],
   [4, 6, 3, 4, 3, 8, 6, 10, 3, 0, 3, 9, 10, 9, 3, -1],
   [10, 9, 4, 6, 10, 4, -1, -1, -1, -1, -1, -1, -1, -1, -1, -1]]

def triangle_table_rows_5 : List (List ℤ) :=
  [[4, 9, 5, 7, 6, 11, -1, -1, -1, -1, -1, -1, -1, -1, -1, -1],
   [0, 8, 3, 4, 9, 5, 11, 7, 6, -1, -1, -1, -1, -1, -1, -1],
   [5, 0, 1, 5, 4, 0, 7, 6, 11, -1, -1, -1, -1, -1, -1, -1],
   [11, 7, 6, 8, 3, 4, 3, 5, 4, 3, 1, 5, -1, -1, -1, -1],
   [9, 5, 4, 10, 1, 2, 7, 6, 11, -1, -1, -1, -1, -1, -1, -1],
   [6, 11, 7, 1, 2, 10, 0, 8, 3, 4, 9, 5, -1, -1, -1, -1],
   [7, 6, 11, 5, 4, 10, 4, 2, 10, 4, 0, 2, -1, -1, -1, -1],
   [3, 4, 8, 3, 5, 4, 3, 2, 5, 10, 5, 2, 11, 7, 6, -1],
   [7, 2, 3, 7, 6, 2, 5, 4, 9, -1, -1, -1, -1, -1, -1, -1],
   [9, 5, 4, 0, 8, 6, 0, 6, 2, 6, 8, 7, -1, -1, -1, -1],
   [3, 6, 2, 3, 7, 6, 1, 5, 0, 5, 4, 0, -1, -1, -1, -1],
   [6, 2, 8, 6, 8, 7, 2, 1, 8, 4, 8, 5, 1, 5, 8, -1],
   [9, 5, 4, 10, 1, 6, 1, 7, 6, 1, 3, 7, -1, -1, -1, -1],
   [1, 6, 10, 1, 7, 6, 1, 0, 7, 8, 7, 0, 9, 5, 4, -1],
   [4, 0, 10, 4, 10, 5, 0, 3, 10, 6, 10, 7, 3, 7, 10, -1],
   [7, 6, 10, 7, 10, 8, 5, 4, 10, 4, 8, 10, -1, -1, -1, -1],
   [6, 9, 5, 6, 11, 9, 11, 8, 9, -1, -1, -1, -1, -1, -1, -1],
   [3, 6, 11, 0, 6, 3, 0, 5, 6, 0, 9, 5, -1, -1, -1, -1],
   [0, 11, 8, 0, 5, 11, 0, 1, 5, 5, 6, 11, -1, -1, -1, -1],
   [6, 11, 3, 6, 3, 5, 5, 3, 1, -1, -1, -1, -1, -1, -1, -1],
   [1, 2, 10, 9, 5, 11, 9, 11, 8, 11, 5, 6, -1, -1, -1, -1],
   [0, 11, 3, 0, 6, 11, 0, 9, 6, 5, 6, 9, 1, 2, 10, -1],
   [11, 8, 5, 11, 5, 6, 8, 0, 5, 10, 5, 2, 0, 2, 5, -1],
   [6, 11, 3, 6, 3, 5, 2, 10, 3, 10, 5, 3, -1, -1, -1, -1],
   [5, 8, 9, 5, 2, 8, 5, 6, 2, 3, 8, 2, -1, -1, -1, -1],
   [9, 5, 6, 9, 6, 0, 0, 6, 2, -1, -1, -1, -1, -1, -1, -1],
   [1, 5, 8, 1, 8, 0, 5, 6, 8, 3, 8, 2, 6, 2, 8, -1],
   [1, 5, 6, 2, 1, 6, -1, -1, -1, -1, -1, -1, -1, -1, -1, -1],
   [1, 3, 6, 1, 6, 10, 3, 8, 6, 5, 6, 9, 8, 9, 6, -1],
   [10, 1, 0, 10, 0, 6, 9, 5, 0, 5, 6, 0, -1, -1, -1, -1],
   [0, 3, 8, 5, 6, 10, -1, -1, -1, -1, -1, -1, -1, -1, -1, -1],
   [10, 5, 6, -1, -1, -1, -1, -1, -1, -1, -1, -1, -1, -1, -1, -1]]

def triangle_table_rows_6 : List (List ℤ) :=
  [[11, 5, 10, 7, 5, 11, -1, -1, -1, -1, -1, -1, -1, -1, -1, -1],
   [11, 5, 10, 11, 7, 5, 8, 3, 0, -1, -1, -1, -1, -1, -1, -1],
   [5, 11, 7, 5, 10, 11, 1, 9, 0, -1, -1, -1, -1, -1, -1, -1],
   [10, 7, 5, 10, 11, 7, 9, 8, 1, 8, 3, 1, -1, -1, -1, -1],
   [11, 1, 2, 11, 7, 1, 7, 5, 1, -1, -1, -1, -1, -1, -1, -1],
   [0, 8, 3, 1, 2, 7, 1, 7, 5, 7, 2, 11, -1, -1, -1, -1],
   [9, 7, 5, 9, 2, 7, 9, 0, 2, 2, 11, 7, -1, -1, -1, -1],
   [7, 5, 2, 7, 2, 11, 5, 9, 2, 3, 2, 8, 9, 8, 2, -1],
   [2, 5, 10, 2, 3, 5, 3, 7, 5, -1, -1, -1, -1, -1, -1, -1],
   [8, 2, 0, 8, 5, 2, 8, 7, 5, 10, 2, 5, -1, -1, -1, -1],
   [9, 0, 1, 5, 10, 3, 5, 3, 7, 3, 10, 2, -1, -1, -1, -1],
   [9, 8, 2, 9, 2, 1, 8, 7, 2, 10, 2, 5, 7, 5, 2, -1],
   [1, 3, 5, 3, 7, 5, -1, -1, -1, -1, -1, -1, -1, -1, -1, -1],
   [0, 8, 7, 0, 7, 1, 1, 7, 5, -1, -1, -1, -1, -1, -1, -1],
   [9, 0, 3, 9, 3, 5, 5, 3, 7, -1, -1, -1, -1, -1, -1, -1],
   [9, 8, 7, 5, 9, 7, -1, -1, -1, -1, -1, -1, -1, -1, -1, -1],
   [5, 8, 4, 5, 10, 8, 10, 11, 8, -1, -1, -1, -1, -1, -1, -1],
   [5, 0, 4, 5, 11, 0, 5, 10, 11, 11, 3, 0, -1, -1, -1, -1],
   [0, 1, 9, 8, 4, 10, 8, 10, 11, 10, 4, 5, -1, -1, -1, -1],
   [10, 11, 4, 10, 4, 5, 11, 3, 4, 9, 4, 1, 3, 1, 4, -1],
   [2, 5, 1, 2, 8, 5, 2, 11, 8, 4, 5, 8, -1, -1, -1, -1],
   [0, 4, 11, 0, 11, 3, 4, 5, 11, 2, 11, 1, 5, 1, 11, -1],
   [0, 2, 5, 0, 5, 9, 2, 11, 5, 4, 5, 8, 11, 8, 5, -1],
   [9, 4, 5, 2, 11, 3, -1, -1, -1, -1, -1, -1, -1, -1, -1, -1],
   [2, 5, 10, 3, 5, 2, 3, 4, 5, 3, 8, 4, -1, -1, -1, -1],
   [5, 10, 2, 5, 2, 4, 4, 2, 0, -1, -1, -1, -1, -1, -1, -1],
   [3, 10, 2, 3, 5, 10, 3, 8, 5, 4, 5, 8, 0, 1, 9, -1],
   [5, 10, 2, 5, 2, 4, 1, 9, 2, 9, 4, 2, -1, -1, -1, -1],
   [8, 4, 5, 8, 5, 3, 3, 5, 1, -1, -1, -1, -1, -1, -1, -1],
   [0, 4, 5, 1, 0, 5, -1, -1, -1, -1, -1, -1, -1, -1, -1, -1],
   [8, 4, 5, 8, 5, 3, 9, 0, 5, 0, 3, 5, -1, -1, -1, -1],
   [9, 4, 5, -1, -1, -1, -1, -1, -1, -1, -1, -1, -1, -1, -1, -1]]

def triangle_table_rows_7 : List (List ℤ) :=
  [[4, 11, 7, 4, 9, 11, 9, 10, 11, -1, -1, -1, -1, -1, -1, -1],
   [0, 8, 3, 4, 9, 7, 9, 11, 7, 9, 10, 11, -1, -1, -1, -1],
   [1, 10, 11, 1, 11, 4, 1, 4, 0, 7, 4, 11, -1, -1, -1, -1],
   [3, 1, 4, 3, 4, 8, 1, 10, 4, 7, 4, 11, 10, 11, 4, -1],
   [4, 11, 7, 9, 11, 4, 9, 2, 11, 9, 1, 2, -1, -1, -1, -1],
   [9, 7, 4, 9, 11, 7, 9, 1, 11, 2, 11, 1, 0, 8, 3, -1],
   [11, 7, 4, 11, 4, 2, 2, 4, 0, -1, -1, -1, -1, -1, -1, -1],
   [11, 7, 4, 11, 4, 2, 8, 3, 4, 3, 2, 4, -1, -1, -1, -1],
   [2, 9, 10, 2, 7, 9, 2, 3, 7, 7, 4, 9, -1, -1, -1, -1],
   [9, 10, 7, 9, 7, 4, 10, 2, 7, 8, 7, 0, 2, 0, 7, -1],
   [3, 7, 10, 3, 10, 2, 7, 4, 10, 1, 10, 0, 4, 0, 10, -1],
   [1, 10, 2, 8, 7, 4, -1, -1, -1, -1, -1, -1, -1, -1, -1, -1],
   [4, 9, 1, 4, 1, 7, 7, 1, 3, -1, -1, -1, -1, -1, -1, -1],
   [4, 9, 1, 4, 1, 7, 0, 8, 1, 8, 7, 1, -1, -1, -1, -1],
   [4, 0, 3, 7, 4, 3, -1, -1, -1, -1, -1, -1, -1, -1, -1, -1],
   [4, 8, 7, -1, -1, -1, -1, -1, -1, -1, -1, -1, -1, -1, -1, -1],
   [9, 10, 8, 10, 11, 8, -1, -1, -1, -1, -1, -1, -1, -1, -1, -1],
   [3, 0, 9, 3, 9, 11, 11, 9, 10, -1, -1, -1, -1, -1, -1, -1],
   [0, 1, 10, 0, 10, 8, 8, 10, 11, -1, -1, -1, -1, -1, -1, -1],
   [3, 1, 10, 11, 3, 10, -1, -1, -1, -1, -1, -1, -1, -1, -1, -1],
   [1, 2, 11, 1, 11, 9, 9, 11, 8, -1, -1, -1, -1, -1, -1, -1],
   [3, 0, 9, 3, 9, 11, 1, 2, 9, 2, 11, 9, -1, -1, -1, -1],
   [0, 2, 11, 8, 0, 11, -1, -1, -1, -1, -1, -1, -1, -1, -1, -1],
   [3, 2, 11, -1, -1, -1, -1, -1, -1, -1, -1, -1, -1, -1, -1, -1],
   [2, 3, 8, 2, 8, 10, 10, 8, 9, -1, -1, -1, -1, -1, -1, -1],
   [9, 10, 2, 0, 9, 2, -1, -1, -1, -1, -1, -1, -1, -1, -1, -1],
   [2, 3, 8, 2, 8, 10, 0, 1, 8, 1, 10, 8, -1, -1, -1, -1],
   [1, 10, 2, -1, -1, -1, -1, -1, -1, -1, -1, -1, -1, -1, -1, -1],
   [1, 3, 8, 9, 1, 8, -1, -1, -1, -1, -1, -1, -1, -1, -1, -1],
   [0, 9, 1, -1, -1, -1, -1, -1, -1, -1, -1, -1, -1, -1, -1, -1],
   [0, 3, 8, -1, -1, -1, -1, -1, -1, -1, -1, -1, -1, -1, -1, -1],
   [-1, -1, -1, -1, -1, -1, -1, -1, -1, -1, -1, -1, -1, -1, -1, -1]]

/-- The 256-row marching-cubes case table of marchingcubes.pyx lines 421-678,
split into blocks of 32 rows. -/

def triangle_table : List (List ℤ) :=
  triangle_table_rows_0 ++ triangle_table_rows_1 ++ triangle_table_rows_2 ++
  triangle_table_rows_3 ++ triangle_table_rows_4 ++ triangle_table_rows_5 ++
  triangle_table_rows_6 ++ triangle_table_rows_7

/-- The 8 corner index triples of the cell at (i, j, k), marchingcubes.pyx lines 71-100. -/
def mc_voxel_indices (i j k : ℕ) : ℕ → Fin 3 → ℕ := fun c =>
  match c with
  | 0 => vecN i j (k + 1)
  | 1 => vecN i j k
  | 2 => vecN (i + 1) j k
  | 3 => vecN (i + 1) j (k + 1)
  | 4 => vecN i (j + 1) (k + 1)
  | 5 => vecN i (j + 1) k
  | 6 => vecN (i + 1) (j + 1) k
  | 7 => vecN (i + 1) (j + 1) (k + 1)
  | _ => vecN 0 0 0

/-- The 8 corner values gathered from the grid, marchingcubes.pyx lines 103-110 (the same corner numbering as mc_voxel_indices). -/
def mc_voxel_values (grid : ℕ → ℕ → ℕ → ℝ) (i j k : ℕ) : ℕ → ℝ := fun c =>
  match c with
  | 0 => grid i j (k + 1)
  | 1 => grid i j k
  | 2 => grid (i + 1) j k
  | 3 => grid (i + 1) j (k + 1)
  | 4 => grid i (j + 1) (k + 1)
  | 5 => grid i (j + 1) k
  | 6 => grid (i + 1) (j + 1) k
  | 7 => grid (i + 1) (j + 1) (k + 1)
  | _ => 0

/-- Embeds get_edges of marchingcubes.pyx lines 337-361: the two case indices select rows of triangle_table. -/
noncomputable def mc_get_edges (isovalue : ℝ) (voxel_values : ℕ → ℝ) :
    List ℤ × List ℤ :=
  (triangle_table.getD (mc_triangle_table_index_1 isovalue voxel_values) [],
   triangle_table.getD (mc_triangle_table_index_2 isovalue voxel_values) [])

/-- One slice assignment vertices[count:count + 3] = v with count += 3 (marchingcubes.pyx lines 219-230), on a buffer modelled as the list of floats written so far. -/
noncomputable def push3 (st : List ℝ × ℕ) (v : Fin 3 → ℝ) : List ℝ × ℕ :=
  (st.1 ++ [v 0, v 1, v 2], st.2 + 3)

/-- One triangle emission of the marching_cubes inner loop (marchingcubes.pyx lines 117-243): corner pairs from edge_vertex_indices, corner positions origin + voxel_size * index, interpolation factors, interpolated vertices, per-vertex normals flipped by -prefactor, and the six 3-float writes into the phase buffer. -/
noncomputable def mc_emit_triangle (grid : ℕ → ℕ → ℕ → ℝ) (isovalue : ℝ)
    (origin voxel_size : Fin 3 → ℝ) (max_x max_y max_z : ℕ)
    (i j k : ℕ) (prefactor : ℝ) (e1 e2 e3 : ℤ) (st : List ℝ × ℕ) :
    List ℝ × ℕ :=
  let vi := mc_voxel_indices i j k
  let vv := mc_voxel_values grid i j k
  let c11 := (edge_vertex_indices.getD e1.toNat (0, 0)).1
  let c12 := (edge_vertex_indices.getD e1.toNat (0, 0)).2
  let c21 := (edge_vertex_indices.getD e2.toNat (0, 0)).1
  let c22 := (edge_vertex_indices.getD e2.toNat (0, 0)).2
  let c31 := (edge_vertex_indices.getD e3.toNat (0, 0)).1
  let c32 := (edge_vertex_indices.getD e3.toNat (0, 0)).2
  let p : ℕ → Fin 3 → ℝ := fun c l => origin l + voxel_size l * vi c l
  let t1 := mc_calculate_interpolation_value (isovalue * prefactor) (vv c11) (vv c12)
  let t2 := mc_calculate_interpolation_value (isovalue * prefactor) (vv c21) (vv c22)
  let t3 := mc_calculate_interpolation_value (isovalue * prefactor) (vv c31) (vv c32)
  let n1 := calculate_normal_vertex grid max_x max_y max_z (vi c11) (vi c12) t1
  let n2 := calculate_normal_vertex grid max_x max_y max_z (vi c21) (vi c22) t2
  let n3 := calculate_normal_vertex grid max_x max_y max_z (vi c31) (vi c32) t3
  let vertex1 : Fin 3 → ℝ := fun l => p c11 l + t1 * (p c12 l - p c11 l)
  let vertex2 : Fin 3 → ℝ := fun l => p c21 l + t2 * (p c22 l - p c21 l)
  let vertex3 : Fin 3 → ℝ := fun l => p c31 l + t3 * (p c32 l - p c31 l)
  let m1 : Fin 3 → ℝ := fun l => -prefactor * n1 l
  let m2 : Fin 3 → ℝ := fun l => -prefactor * n2 l
  let m3 : Fin 3 → ℝ := fun l => -prefactor * n3 l
  push3 (push3 (push3 (push3 (push3 (push3 st vertex1) m1) vertex2) m2) vertex3) m3

/-- The inner loop for ei in range(5) of marching_cubes (lines 114-116): stops at the first -1 sentinel at row position ei * 3, otherwise emits the triangle of edge ids at positions ei * 3, ei * 3 + 1, ei * 3 + 2 and continues. -/
noncomputable def mc_process_row (emit : ℤ → ℤ → ℤ → List ℝ × ℕ → List ℝ × ℕ)
    (row : List ℤ) : ℕ → ℕ → List ℝ × ℕ → List ℝ × ℕ
  | 0, _, st => st
  | fuel + 1, ei, st =>
      if row.getD (ei * 3) (-1) = -1 then st
      else
        mc_process_row emit row fuel (ei + 1)
          (emit (row.getD (ei * 3) (-1)) (row.getD (ei * 3 + 1) (-1))
            (row.getD (ei * 3 + 2) (-1)) st)

/-- The number of triangles the inner loop emits from a table row: entries at positions 0, 3, 6, 9, 12 before the first -1 sentinel. -/
def mc_row_triangle_count (row : List ℤ) : ℕ → ℕ → ℕ
  | 0, _ => 0
  | fuel + 1, ei =>
      if row.getD (ei * 3) (-1) = -1 then 0
      else mc_row_triangle_count row fuel (ei + 1) + 1

/-- The cell traversal order of marching_cubes (lines 69-91): i in range(x_voxels - 1), j in range(y_voxels - 1), k in range(z_voxels - 1). -/
def mc_cells (voxel_number : Fin 3 → ℤ) : List (ℕ × ℕ × ℕ) :=
  (List.range (voxel_number 0 - 1).toNat).flatMap fun i =>
    (List.range (voxel_number 1 - 1).toNat).flatMap fun j =>
      (List.range (voxel_number 2 - 1).toNat).map fun k => (i, j, k)

/-- Processing of one cell (marchingcubes.pyx lines 102-243): get_edges on the gathered corner values, then the positive-phase row with prefactor 1 into the first buffer and the negative-phase row with prefactor -1 into the second. -/
noncomputable def mc_cell_step (grid : ℕ → ℕ → ℕ → ℝ) (isovalue : ℝ)
    (origin voxel_size : Fin 3 → ℝ) (max_x max_y max_z : ℕ)
    (st : (List ℝ × ℕ) × (List ℝ × ℕ)) (c : ℕ × ℕ × ℕ) :
    (List ℝ × ℕ) × (List ℝ × ℕ) :=
  let rows := mc_get_edges isovalue (mc_voxel_values grid c.1 c.2.1 c.2.2)
  (mc_process_row
      (mc_emit_triangle grid isovalue origin voxel_size max_x max_y max_z
        c.1 c.2.1 c.2.2 1) rows.1 5 0 st.1,
   mc_process_row
      (mc_emit_triangle grid isovalue origin voxel_size max_x max_y max_z
        c.1 c.2.1 c.2.2 (-1)) rows.2 5 0 st.2)

/-- Embeds marching_cubes of marchingcubes.pyx lines 13-248. Each phase result is the pair (floats written, running vertices_count); the source finally stores the count into the sentinel slot vertices[-1] (lines 245-246). -/
noncomputable def marching_cubes (grid : ℕ → ℕ → ℕ → ℝ) (isovalue : ℝ)
    (origin voxel_size : Fin 3 → ℝ) (voxel_number : Fin 3 → ℤ) :
    (List ℝ × ℕ) × (List ℝ × ℕ) :=
  (mc_cells voxel_number).foldl
    (mc_cell_step grid isovalue origin voxel_size
      (voxel_number 0).toNat (voxel_number 1).toNat (voxel_number 2).toNat)
    (([], 0), ([], 0))

/-- The total number of positive-phase triangles marching_cubes emits: the per-cell count of table-row triangles, summed in traversal order. -/
noncomputable def mc_total_triangles_1 (grid : ℕ → ℕ → ℕ → ℝ) (isovalue : ℝ)
    (voxel_number : Fin 3 → ℤ) : ℕ :=
  ((mc_cells voxel_number).map fun c =>
    mc_row_triangle_count
      (mc_get_edges isovalue (mc_voxel_values grid c.1 c.2.1 c.2.2)).1 5 0).sum

/-- The total number of negative-phase triangles marching_cubes emits. -/
noncomputable def mc_total_triangles_2 (grid : ℕ → ℕ → ℕ → ℝ) (isovalue : ℝ)
    (voxel_number : Fin 3 → ℤ) : ℕ :=
  ((mc_cells voxel_number).map fun c =>
    mc_row_triangle_count
      (mc_get_edges isovalue (mc_voxel_values grid c.1 c.2.1 c.2.2)).2 5 0).sum

/-! ## Theorems -/

@[simp] theorem vec3_zero (a b c : ℝ) : vec3 a b c 0 = a := rfl

@[simp] theorem vec3_one (a b c : ℝ) : vec3 a b c 1 = b := rfl

@[simp] theorem vec3_two (a b c : ℝ) : vec3 a b c 2 = c := rfl

/-- The radial sum over one primitive. -/
theorem radial_sum_single (alpha c n r2 : ℝ) :
    radial_sum [alpha] [c] [n] r2 = n * c * Real.exp (-alpha * r2) := by
  simp [radial_sum]

/-- The s branch returns the radial sum alone, for any primitive arrays. -/
theorem aos_s_general (P C : Fin 3 → ℝ) (exponents coefficients norms : List ℝ) :
    calculate_aos P C exponents coefficients norms 0 =
      [radial_sum exponents coefficients norms (dist_sq P C)] := by
  simp [calculate_aos, dist_sq]

/-- Closed form of the single-primitive s amplitude. -/
theorem aos_s_single (P C : Fin 3 → ℝ) (alpha c n : ℝ) :
    calculate_aos P C [alpha] [c] [n] 0 =
      [n * c * Real.exp (-alpha * dist_sq P C)] := by
  simp [calculate_aos, radial_sum, dist_sq]

/-- C2: calculate_aos computes the radial part u as the sum over primitives of n_i * c_i * exp(-alpha_i * r2) and writes exactly u as the single s-shell component; for a single primitive the field is n * c * exp(-alpha * dist_sq), bounded by n * c and equal to n * c at P = C. -/
theorem C2_s_shell_field (P C : Fin 3 → ℝ) (exponents coefficients norms : List ℝ)
    (alpha c n : ℝ) (halpha : 0 ≤ alpha) (hcn : 0 ≤ n * c) :
    calculate_aos P C exponents coefficients norms 0 =
      [radial_sum exponents coefficients norms (dist_sq P C)] ∧
    calculate_aos P C [alpha] [c] [n] 0 =
      [n * c * Real.exp (-alpha * dist_sq P C)] ∧
    n * c * Real.exp (-alpha * dist_sq P C) ≤ n * c ∧
    calculate_aos C C [alpha] [c] [n] 0 = [n * c] := by
  refine ⟨aos_s_general P C exponents coefficients norms,
    aos_s_single P C alpha c n, ?_, ?_⟩
  · have hr2 : 0 ≤ dist_sq P C := by
      have := sq_nonneg (P 0 - C 0)
      have := sq_nonneg (P 1 - C 1)
      have := sq_nonneg (P 2 - C 2)
      unfold dist_sq; linarith
    have hexp : Real.exp (-alpha * dist_sq P C) ≤ 1 := by
      apply Real.exp_le_one_iff.mpr
      nlinarith
    nlinarith [Real.exp_pos (-alpha * dist_sq P C)]
  · rw [aos_s_single C C alpha c n]
    simp [dist_sq]

/-- Witness for C2 at P = C = 0, alpha = c = n = 1. -/
theorem C2_s_shell_field_witness :
    calculate_aos (vec3 0 0 0) (vec3 0 0 0) [2] [3] [4] 0 =
      [radial_sum [2] [3] [4] (dist_sq (vec3 0 0 0) (vec3 0 0 0))] ∧
    calculate_aos (vec3 0 0 0) (vec3 0 0 0) [1] [1] [1] 0 =
      [1 * 1 * Real.exp (-1 * dist_sq (vec3 0 0 0) (vec3 0 0 0))] ∧
    1 * 1 * Real.exp (-1 * dist_sq (vec3 0 0 0) (vec3 0 0 0)) ≤ 1 * 1 ∧
    calculate_aos (vec3 0 0 0) (vec3 0 0 0) [1] [1] [1] 0 = [1 * 1] :=
  C2_s_shell_field (vec3 0 0 0) (vec3 0 0 0) [2] [3] [4] 1 1 1 (by norm_num) (by norm_num)


/-- C3 counterexample: at displacement d = (1, 2, 3) with u = 1, the f component the code stores at index 3 is sqrt 5 * d_y^2 * d_x = 4 * sqrt 5, not the sqrt 5 * d_x^2 * d_y = 2 * sqrt 5 the claimed order (index 3 = xxy) demands: index 3 is fxyy in the source. -/
theorem C3_f_order_counterexample :
    (calculate_aos (vec3 1 2 3) (vec3 0 0 0) [0] [1] [1] 3).getD 3 0 =
      4 * sqr5 ∧ 4 * sqr5 ≠ sqr5 * 1 ^ 2 * 2 := by
  constructor
  · simp only [calculate_aos, radial_sum]
    norm_num
  · have h5 : (0:ℝ) < sqr5 := Real.sqrt_pos.mpr (by norm_num)
    intro h
    nlinarith

/-- C3 amended: the f branch writes the 10 components in the order xxx, yyy, zzz, xyy, xxy, xxz, xzz, yzz, yyz, xyz (the index constants fxyy = 3, fxxy = 4, fxxz = 5, fxzz = 6, fyzz = 7, fyyz = 8 of aos.pyx), with d_k^3 * u for the pure cubics, sqrt 5 * d_i^2 * d_j * u for the six mixed components, and sqrt 5 * sqrt 3 * d_x * d_y * d_z * u, the multiplier chained, for xyz. -/
theorem C3_f_shell_components (P C : Fin 3 → ℝ) (exponents coefficients norms : List ℝ) :
    calculate_aos P C exponents coefficients norms 3 =
      ([(P 0 - C 0) ^ 3, (P 1 - C 1) ^ 3, (P 2 - C 2) ^ 3,
        sqr5 * (P 0 - C 0) * (P 1 - C 1) ^ 2,
        sqr5 * (P 0 - C 0) ^ 2 * (P 1 - C 1),
        sqr5 * (P 0 - C 0) ^ 2 * (P 2 - C 2),
        sqr5 * (P 0 - C 0) * (P 2 - C 2) ^ 2,
        sqr5 * (P 1 - C 1) * (P 2 - C 2) ^ 2,
        sqr5 * (P 1 - C 1) ^ 2 * (P 2 - C 2),
        sqr5 * sqr3 * (P 0 - C 0) * (P 1 - C 1) * (P 2 - C 2)]).map
        (fun w => w * radial_sum exponents coefficients norms (dist_sq P C)) := by
  simp only [calculate_aos, dist_sq, List.map, List.cons.injEq, and_true]
  norm_num
  any_goals and_intros
  all_goals
    first
    | ring1
    | (left; ring1)


theorem shell_offset_zero (s : ℕ) (rest : List ℕ) : shell_offset (s :: rest) 0 = 0 := rfl

theorem shell_offset_succ (s : ℕ) (rest : List ℕ) (t : ℕ) :
    shell_offset (s :: rest) (t + 1) = number_of_basis_functions s + shell_offset rest t := by
  simp [shell_offset]

/-- The shell loop, re-expressed as a sum over shell positions with explicit offsets. -/
theorem calculate_mo_cartesian_go_sum (electron_position : Fin 3 → ℝ)
    (orbital_position : ℕ → Fin 3 → ℝ)
    (orbital_coefficients orbital_exponents orbital_norms : ℕ → List ℝ)
    (mo_coefficients : ℕ → ℝ) (cut_off_distances : ℕ → ℝ) :
    ∀ (shells : List ℕ) (shell_index shell_start : ℕ),
    calculate_mo_cartesian_go electron_position orbital_position orbital_coefficients
        orbital_exponents orbital_norms mo_coefficients cut_off_distances
        shells shell_index shell_start =
      ∑ t ∈ Finset.range shells.length,
        if dist_sq electron_position
            (orbital_position (shell_start + shell_offset shells t)) <
            cut_off_distances (shell_index + t) ^ 2 then
          shell_dot electron_position orbital_position orbital_coefficients
            orbital_exponents orbital_norms mo_coefficients (shells.getD t 0)
            (shell_start + shell_offset shells t)
        else 0
  | [], shell_index, shell_start => by
      simp [calculate_mo_cartesian_go]
  | s :: rest, shell_index, shell_start => by
      rw [calculate_mo_cartesian_go]
      rw [calculate_mo_cartesian_go_sum electron_position orbital_position
        orbital_coefficients orbital_exponents orbital_norms mo_coefficients
        cut_off_distances rest (shell_index + 1) (shell_start + number_of_basis_functions s)]
      rw [List.length_cons, Finset.sum_range_succ']
      simp only [shell_offset_zero, shell_offset_succ, List.getD_cons_succ, List.getD_cons_zero]
      rw [add_comm]
      congr 1
      · apply Finset.sum_congr rfl
        intro t ht
        have h1 : shell_start + (number_of_basis_functions s + shell_offset rest t) =
            shell_start + number_of_basis_functions s + shell_offset rest t := by ring
        have h2 : shell_index + (t + 1) = shell_index + 1 + t := by ring
        rw [h1, h2]

/-- C5 amended: calculate_mo_cartesian returns the sum over shells of the dot product of the shell amplitudes with the molecular-orbital coefficients over the shell range starting at shell_offset, each shell contributing exactly when its squared distance is strictly below the cutoff squared and zero (skipped) otherwise, so a shell is skipped already when the squared distance equals the cutoff squared. -/
theorem C5_shell_cutoff_sum (electron_position : Fin 3 → ℝ)
    (orbital_position : ℕ → Fin 3 → ℝ)
    (orbital_coefficients orbital_exponents orbital_norms : ℕ → List ℝ)
    (shells : List ℕ) (mo_coefficients : ℕ → ℝ) (cut_off_distances : ℕ → ℝ) :
    calculate_mo_cartesian electron_position orbital_position orbital_coefficients
        orbital_exponents orbital_norms shells mo_coefficients cut_off_distances =
      ∑ t ∈ Finset.range shells.length,
        if dist_sq electron_position (orbital_position (shell_offset shells t)) <
            cut_off_distances t ^ 2 then
          shell_dot electron_position orbital_position orbital_coefficients
            orbital_exponents orbital_norms mo_coefficients (shells.getD t 0)
            (shell_offset shells t)
        else 0 := by
  rw [calculate_mo_cartesian, calculate_mo_cartesian_go_sum]
  simp

/-- C5 counterexample: a single s shell at squared distance exactly cutoff^2 = 1 is skipped (the code tests distance_sq < cutoff ** 2), returning 0, although the squared distance does not exceed the cutoff squared and the dot product the claim promises is 1. -/
theorem C5_cutoff_boundary_counterexample :
    calculate_mo_cartesian (vec3 1 0 0) (fun _ => vec3 0 0 0) (fun _ => [1])
        (fun _ => [0]) (fun _ => [1]) [0] (fun _ => 1) (fun _ => 1) = 0 ∧
    ¬ dist_sq (vec3 1 0 0) (vec3 0 0 0) > (1:ℝ) ^ 2 ∧
    shell_dot (vec3 1 0 0) (fun _ => vec3 0 0 0) (fun _ => [1]) (fun _ => [0])
        (fun _ => [1]) (fun _ => 1) 0 0 = 1 := by
  refine ⟨?_, ?_, ?_⟩
  · simp [calculate_mo_cartesian, calculate_mo_cartesian_go, dist_sq]
  · simp [dist_sq]
  · simp [shell_dot, number_of_basis_functions, calculate_aos, radial_sum, dist_sq]


theorem voxel_write_lookup (g : ℕ × ℕ × ℕ → ℝ) (i j k : ℕ) (v : ℝ) (p : ℕ × ℕ × ℕ) :
    voxel_grid_write g i j k v p = if p = (i, j, k) then v else g p := rfl

/-- Lookup after the innermost sampling loop. -/
theorem voxel_fold_k_lookup (i j : ℕ) (val : ℕ → ℝ) :
    ∀ (nk : ℕ) (g : ℕ × ℕ × ℕ → ℝ) (p : ℕ × ℕ × ℕ),
    ((List.range nk).foldl (fun g k => voxel_grid_write g i j k (val k)) g) p =
      if p.1 = i ∧ p.2.1 = j ∧ p.2.2 < nk then val p.2.2 else g p
  | 0, g, p => by simp
  | nk + 1, g, p => by
      rw [List.range_succ, List.foldl_append, List.foldl_cons, List.foldl_nil,
        voxel_write_lookup, voxel_fold_k_lookup i j val nk g p]
      rcases p with ⟨a, b, c⟩
      by_cases h1 : a = i <;> by_cases h2 : b = j <;> by_cases h3 : c = nk <;>
        simp [h1, h2, h3, Prod.ext_iff, Nat.lt_succ_iff_lt_or_eq] <;> omega

/-- Lookup after the middle sampling loop. -/
theorem voxel_fold_j_lookup (i : ℕ) (val : ℕ → ℕ → ℝ) (nk : ℕ) :
    ∀ (nj : ℕ) (g : ℕ × ℕ × ℕ → ℝ) (p : ℕ × ℕ × ℕ),
    ((List.range nj).foldl (fun g j =>
        (List.range nk).foldl (fun g k => voxel_grid_write g i j k (val j k)) g) g) p =
      if p.1 = i ∧ p.2.1 < nj ∧ p.2.2 < nk then val p.2.1 p.2.2 else g p
  | 0, g, p => by simp
  | nj + 1, g, p => by
      rw [List.range_succ, List.foldl_append, List.foldl_cons, List.foldl_nil,
        voxel_fold_k_lookup i nj (val nj), voxel_fold_j_lookup i val nk nj g p]
      rcases p with ⟨a, b, c⟩
      by_cases h1 : a = i <;> by_cases h2 : b = nj <;>
        simp [h1, h2, Nat.lt_succ_iff_lt_or_eq] <;> omega

/-- Lookup after the full triple sampling loop: a cell inside the ranges holds its computed value, anything else is untouched. -/
theorem voxel_fold_i_lookup (val : ℕ → ℕ → ℕ → ℝ) (nj nk : ℕ) :
    ∀ (ni : ℕ) (g : ℕ × ℕ × ℕ → ℝ) (p : ℕ × ℕ × ℕ),
    ((List.range ni).foldl (fun g i =>
        (List.range nj).foldl (fun g j =>
          (List.range nk).foldl (fun g k => voxel_grid_write g i j k (val i j k)) g) g) g) p =
      if p.1 < ni ∧ p.2.1 < nj ∧ p.2.2 < nk then val p.1 p.2.1 p.2.2 else g p
  | 0, g, p => by simp
  | ni + 1, g, p => by
      rw [List.range_succ, List.foldl_append, List.foldl_cons, List.foldl_nil,
        voxel_fold_j_lookup ni (val ni) nk, voxel_fold_i_lookup val nj nk ni g p]
      rcases p with ⟨a, b, c⟩
      by_cases h1 : a = ni <;>
        simp [h1, Nat.lt_succ_iff_lt_or_eq] <;> omega

/-- C1: every cell [i, j, k] of a grid produced by generate_voxel_grid with all voxel counts at least 1 holds the molecular-orbital field value at origin + i * basis0 + j * basis1 + k * basis2, the three basis vectors combined additively, scaled by the fixed ANGSTROM_TO_BOHR constant before evaluation. -/
theorem C1_voxel_grid_cell (origin : Fin 3 → ℝ) (voxel_size : Fin 3 → Fin 3 → ℝ)
    (voxel_count : Fin 3 → ℤ)
    (orbital_position : ℕ → Fin 3 → ℝ)
    (orbital_coefficients orbital_exponents orbital_norms : ℕ → List ℝ)
    (shells : List ℕ) (mo_coeff : ℕ → ℝ) (cut_off_distances : ℕ → ℝ)
    (h1 : 1 ≤ voxel_count 0) (h2 : 1 ≤ voxel_count 1) (h3 : 1 ≤ voxel_count 2)
    (i j k : ℕ) (hi : (i : ℤ) < voxel_count 0) (hj : (j : ℤ) < voxel_count 1)
    (hk : (k : ℤ) < voxel_count 2)
    (g : ℕ × ℕ × ℕ → ℝ)
    (hg : generate_voxel_grid origin voxel_size voxel_count orbital_position
      orbital_coefficients orbital_exponents orbital_norms shells mo_coeff
      cut_off_distances = Except.ok g) :
    g (i, j, k) =
      calculate_mo_cartesian
        (fun l => (origin l + voxel_size 0 l * i + voxel_size 1 l * j +
          voxel_size 2 l * k) * ANGSTROM_TO_BOHR)
        orbital_position orbital_coefficients orbital_exponents orbital_norms
        shells mo_coeff cut_off_distances := by
  rw [generate_voxel_grid] at hg
  rw [if_neg (by push_neg; omega)] at hg
  have hgv : g = voxel_grid_loops (voxel_size 0) (voxel_size 1) (voxel_size 2)
      (voxel_count 0) (voxel_count 1) (voxel_count 2) origin
      orbital_position orbital_coefficients orbital_exponents orbital_norms
      shells mo_coeff cut_off_distances (fun _ => 0) := by
    injection hg with h
    exact h.symm
  subst hgv
  rw [voxel_grid_loops, voxel_fold_i_lookup]
  dsimp only
  rw [if_pos (⟨by omega, by omega, by omega⟩ :
    i < (voxel_count 0).toNat ∧ j < (voxel_count 1).toNat ∧ k < (voxel_count 2).toNat)]
  congr 1
  funext l
  simp only [voxel_cell_position]
  ring


/-- C4: the code evaluated at the failing input. For isovalue 1 and saddle corners (2, -2, 2, -2) the positive-phase case index is 5 and the mean 0 lies below the isovalue, yet get_edges emits the case-5 edge list [0, 1, 2, 3]: the first if rewrites 5 to 10 and the second, non-exclusive if immediately rewrites 10 back to 5, so the claimed swap to the case-10 list [0, 2, 1, 3] never happens. -/
theorem C4_saddle_swap_undone :
    ms_line_table_index_1 1 saddle_corners = 5 ∧
    ms_mean saddle_corners < 1 ∧
    (ms_get_edges 1 saddle_corners).1 = [0, 1, 2, 3] ∧
    line_table.getD 10 [] = [0, 2, 1, 3] ∧
    ([0, 1, 2, 3] : List ℤ) ≠ [0, 2, 1, 3] := by
  have hr : List.range 4 = [0, 1, 2, 3] := rfl
  have hidx : ms_line_table_index_1 1 saddle_corners = 5 := by
    rw [ms_line_table_index_1, hr]
    norm_num [saddle_corners, List.foldl]
    decide
  refine ⟨hidx, ?_, ?_, by norm_num [line_table], by decide⟩
  · norm_num [ms_mean, saddle_corners]
  · rw [ms_get_edges, hidx]
    norm_num [ms_saddle_resolve_1, ms_mean, saddle_corners, line_table]


/-- C6 counterexample: the marching-cubes calculate_interpolation_value at iso = 1, v1 = 0, v2 = 1e-7 returns 1e7, not the 0.5 the claim demands for corner pairs with difference below 1e-6. -/
theorem C6_mc_unguarded_counterexample :
    |(1 / 10000000 : ℝ) - 0| < 1e-6 ∧
    mc_calculate_interpolation_value 1 0 (1 / 10000000) = 10000000 ∧
    (10000000 : ℝ) ≠ 0.5 := by
  norm_num [mc_calculate_interpolation_value, abs_lt]

/-- C6 amended: the marching-squares calculate_interpolation_value returns exactly 0.5 when the corner difference is below 1e-6 and the formula (iso - v1) / (v2 - v1) otherwise; the marching-cubes version always returns the bare formula, with no guard. -/
theorem C6_interpolation_guard (iso v1 v2 : ℝ) :
    (|v2 - v1| < 1e-6 → ms_calculate_interpolation_value iso v1 v2 = 0.5) ∧
    (¬ |v2 - v1| < 1e-6 →
      ms_calculate_interpolation_value iso v1 v2 = (iso - v1) / (v2 - v1)) ∧
    mc_calculate_interpolation_value iso v1 v2 = (iso - v1) / (v2 - v1) := by
  refine ⟨fun h => ?_, fun h => ?_, rfl⟩
  · rw [ms_calculate_interpolation_value, if_pos h]
  · rw [ms_calculate_interpolation_value, if_neg h]

/-- Witness for C6 at equal corners (guard branch) and corners 0, 2 (formula branch). -/
theorem C6_interpolation_guard_witness :
    ms_calculate_interpolation_value 1 0 0 = 0.5 ∧
    ms_calculate_interpolation_value 1 0 2 = (1 - 0) / (2 - 0) :=
  ⟨(C6_interpolation_guard 1 0 0).1 (by norm_num),
   (C6_interpolation_guard 1 0 2).2.1 (by norm_num)⟩


/-- Bits of the case-index loop: bit k is set after the fold exactly when it was set before or k is a listed corner whose condition holds. -/
theorem bit_fold_testBit (cond : ℕ → Prop) [DecidablePred cond] :
    ∀ (l : List ℕ) (acc k : ℕ),
    ((l.foldl (fun idx i => if cond i then idx ||| (1 <<< i) else idx) acc).testBit k ↔
      acc.testBit k ∨ (k ∈ l ∧ cond k))
  | [], acc, k => by simp
  | i :: rest, acc, k => by
      rw [List.foldl_cons, bit_fold_testBit cond rest _ k]
      by_cases hci : cond i
      · rw [if_pos hci]
        rw [Nat.testBit_or]
        constructor
        · rintro (h | h)
          · rcases (Bool.or_eq_true _ _).mp h with h' | h'
            · exact Or.inl h'
            · have hki : k = i := by
                by_contra hne
                rw [Nat.one_shiftLeft, Nat.testBit_two_pow_of_ne (fun he => hne he.symm)] at h'
                exact Bool.false_ne_true h'
              subst hki
              exact Or.inr ⟨List.mem_cons_self k rest, hci⟩
          · exact Or.inr ⟨List.mem_cons_of_mem i h.1, h.2⟩
        · rintro (h | ⟨hm, hc⟩)
          · exact Or.inl ((Bool.or_eq_true _ _).mpr (Or.inl h))
          · rcases List.mem_cons.mp hm with he | hm'
            · subst he
              refine Or.inl ((Bool.or_eq_true _ _).mpr (Or.inr ?_))
              rw [Nat.one_shiftLeft, Nat.testBit_two_pow_self]
            · exact Or.inr ⟨hm', hc⟩
      · rw [if_neg hci]
        constructor
        · rintro (h | h)
          · exact Or.inl h
          · exact Or.inr ⟨List.mem_cons_of_mem i h.1, h.2⟩
        · rintro (h | ⟨hm, hc⟩)
          · exact Or.inl h
          · rcases List.mem_cons.mp hm with he | hm'
            · subst he; exact absurd hc hci
            · exact Or.inr ⟨hm', hc⟩

/-- C9: for a nonnegative isovalue the positive-phase and negative-phase case indices computed by the corner loops of get_edges, in marching cubes and in marching squares, share no set bit: no corner value is both above isovalue and below -isovalue. -/
theorem C9_phase_bits_disjoint (isovalue : ℝ) (h : 0 ≤ isovalue) (v8 v4 : ℕ → ℝ) :
    mc_triangle_table_index_1 isovalue v8 &&& mc_triangle_table_index_2 isovalue v8 = 0 ∧
    ms_line_table_index_1 isovalue v4 &&& ms_line_table_index_2 isovalue v4 = 0 := by
  constructor
  · apply Nat.eq_of_testBit_eq
    intro k
    rw [Nat.testBit_and, Nat.zero_testBit]
    rw [Bool.and_eq_false_iff]
    by_cases h1 : (mc_triangle_table_index_1 isovalue v8).testBit k
    · right
      rw [← Bool.not_eq_true]
      intro h2
      rw [mc_triangle_table_index_1, bit_fold_testBit] at h1
      rw [mc_triangle_table_index_2, bit_fold_testBit] at h2
      rcases h1 with h1 | ⟨_, h1⟩
      · simp at h1
      rcases h2 with h2 | ⟨_, h2⟩
      · simp at h2
      linarith
    · simp only [Bool.not_eq_true] at h1
      exact Or.inl h1
  · apply Nat.eq_of_testBit_eq
    intro k
    rw [Nat.testBit_and, Nat.zero_testBit]
    rw [Bool.and_eq_false_iff]
    by_cases h1 : (ms_line_table_index_1 isovalue v4).testBit k
    · right
      rw [← Bool.not_eq_true]
      intro h2
      rw [ms_line_table_index_1, bit_fold_testBit] at h1
      rw [ms_line_table_index_2, bit_fold_testBit] at h2
      rcases h1 with h1 | ⟨_, h1⟩
      · simp at h1
      rcases h2 with h2 | ⟨_, h2⟩
      · simp at h2
      linarith
    · simp only [Bool.not_eq_true] at h1
      exact Or.inl h1


@[simp] theorem vecN_zero (a b c : ℕ) : vecN a b c 0 = a := rfl

@[simp] theorem vecN_one (a b c : ℕ) : vecN a b c 1 = b := rfl

@[simp] theorem vecN_two (a b c : ℕ) : vecN a b c 2 = c := rfl

theorem norm3_nonneg (v : Fin 3 → ℝ) : 0 ≤ norm3 v := Real.sqrt_nonneg _

theorem norm3_sq_sum (v : Fin 3 → ℝ) :
    norm3 v * norm3 v = v 0 * v 0 + v 1 * v 1 + v 2 * v 2 := by
  have hS : (0:ℝ) ≤ v 0 * v 0 + v 1 * v 1 + v 2 * v 2 := by
    nlinarith [mul_self_nonneg (v 0), mul_self_nonneg (v 1), mul_self_nonneg (v 2)]
  rw [norm3]
  exact Real.mul_self_sqrt hS

/-- Normalizing a vector of nonzero norm yields a unit vector. -/
theorem norm3_normalize (v : Fin 3 → ℝ) (h : norm3 v ≠ 0) :
    norm3 (normalize3 v) = 1 := by
  have hs : v 0 * v 0 + v 1 * v 1 + v 2 * v 2 = norm3 v * norm3 v := (norm3_sq_sum v).symm
  have hone : normalize3 v 0 * normalize3 v 0 + normalize3 v 1 * normalize3 v 1 +
      normalize3 v 2 * normalize3 v 2 = 1 := by
    simp only [normalize3]
    field_simp
    nlinarith [hs]
  rw [norm3, hone, Real.sqrt_one]

/-- Flipping a vector by a sign of 1 or -1 preserves the norm. -/
theorem norm3_neg_smul (v : Fin 3 → ℝ) (c : ℝ) (hc : c = 1 ∨ c = -1) :
    norm3 (fun l => -c * v l) = norm3 v := by
  rcases hc with h | h <;> subst h <;>
    · rw [norm3, norm3]
      ring_nf

/-- C7 amended: when the central-difference corner gradient and the interpolated normal are nonzero, the corner normal, the vertex normal, and the phase-flipped normal marching_cubes emits are exactly unit length. -/
theorem C7_unit_normals (grid : ℕ → ℕ → ℕ → ℝ) (max_x max_y max_z : ℕ)
    (a b : Fin 3 → ℕ) (t1 : ℝ) (pre : ℝ)
    (ha : norm3 (mc_gradient grid max_x max_y max_z (a 0) (a 1) (a 2)) ≠ 0)
    (hn : norm3 (lerp3
      (calculate_normal_corner grid max_x max_y max_z (a 0) (a 1) (a 2))
      (calculate_normal_corner grid max_x max_y max_z (b 0) (b 1) (b 2)) t1) ≠ 0)
    (hpre : pre = 1 ∨ pre = -1) :
    norm3 (calculate_normal_corner grid max_x max_y max_z (a 0) (a 1) (a 2)) = 1 ∧
    norm3 (calculate_normal_vertex grid max_x max_y max_z a b t1) = 1 ∧
    norm3 (fun l => -pre * calculate_normal_vertex grid max_x max_y max_z a b t1 l) = 1 := by
  have h1 : norm3 (calculate_normal_corner grid max_x max_y max_z (a 0) (a 1) (a 2)) = 1 := by
    rw [calculate_normal_corner]
    exact norm3_normalize _ ha
  have h2 : norm3 (calculate_normal_vertex grid max_x max_y max_z a b t1) = 1 := by
    rw [calculate_normal_vertex]
    exact norm3_normalize _ hn
  exact ⟨h1, h2, by rw [norm3_neg_smul _ pre hpre, h2]⟩

/-- C7 counterexample: on a flat grid the central-difference gradients are zero and there is no epsilon guard, so the divisions by the zero norms produce the zero vector in exact arithmetic (NaN in IEEE doubles) and the emitted normal has length 0, not 1. -/
theorem C7_flat_grid_counterexample :
    norm3 (calculate_normal_vertex (fun _ _ _ => 0) 2 2 2 (vecN 0 0 0) (vecN 0 0 0) 0.5) = 0 ∧
    (0 : ℝ) ≠ 1 := by
  constructor
  · have hg : mc_gradient (fun _ _ _ => (0:ℝ)) 2 2 2 0 0 0 = vec3 0 0 0 := by
      simp [mc_gradient]
    have hc : calculate_normal_corner (fun _ _ _ => (0:ℝ)) 2 2 2 0 0 0 = fun _ => 0 := by
      funext l
      rw [calculate_normal_corner, normalize3, hg]
      simp [norm3, vec3]
    have hl : lerp3 (fun _ => (0:ℝ)) (fun _ => (0:ℝ)) 0.5 = fun _ => (0:ℝ) := by
      funext l
      simp [lerp3]
    have hz : ∀ l : Fin 3, normalize3 (fun _ => (0:ℝ)) l = 0 := by
      intro l
      simp [normalize3]
    rw [calculate_normal_vertex]
    simp only [vecN_zero, vecN_one, vecN_two, hc, hl]
    rw [norm3, hz, hz, hz]
    simp
  · norm_num

theorem norm3_vec3 (a b c : ℝ) :
    norm3 (vec3 a b c) = Real.sqrt (a * a + b * b + c * c) := rfl

theorem ramp_gradient_zero :
    mc_gradient ramp_grid 2 2 2 0 0 0 = vec3 1 0 0 := by
  simp [mc_gradient, ramp_grid]

theorem ramp_gradient_one :
    mc_gradient ramp_grid 2 2 2 1 0 0 = vec3 1 0 0 := by
  simp [mc_gradient, ramp_grid]

theorem norm3_unit_x : norm3 (vec3 1 0 0) = 1 := by
  rw [norm3_vec3]
  norm_num

theorem corner_normal_ramp_zero :
    calculate_normal_corner ramp_grid 2 2 2 0 0 0 = vec3 1 0 0 := by
  rw [calculate_normal_corner, ramp_gradient_zero]
  funext l
  rw [normalize3, norm3_unit_x]
  simp

theorem corner_normal_ramp_one :
    calculate_normal_corner ramp_grid 2 2 2 1 0 0 = vec3 1 0 0 := by
  rw [calculate_normal_corner, ramp_gradient_one]
  funext l
  rw [normalize3, norm3_unit_x]
  simp

theorem lerp_unit_x :
    lerp3 (vec3 1 0 0) (vec3 (1:ℝ) 0 0) (1/2) = vec3 1 0 0 := by
  funext l
  rw [lerp3]
  fin_cases l <;> simp

/-- Witness for C7 on the ramp grid, corners (0, 0, 0) and (1, 0, 0), t = 1/2, positive phase. -/
theorem C7_unit_normals_witness :
    norm3 (calculate_normal_corner ramp_grid 2 2 2 (vecN 0 0 0 0) (vecN 0 0 0 1) (vecN 0 0 0 2)) = 1 ∧
    norm3 (calculate_normal_vertex ramp_grid 2 2 2 (vecN 0 0 0) (vecN 1 0 0) (1/2)) = 1 ∧
    norm3 (fun l => -(1:ℝ) * calculate_normal_vertex ramp_grid 2 2 2 (vecN 0 0 0) (vecN 1 0 0) (1/2) l) = 1 := by
  have ha : norm3 (mc_gradient ramp_grid 2 2 2 (vecN 0 0 0 0) (vecN 0 0 0 1) (vecN 0 0 0 2)) ≠ 0 := by
    simp only [vecN_zero, vecN_one, vecN_two]
    rw [ramp_gradient_zero, norm3_unit_x]
    norm_num
  have hn : norm3 (lerp3
      (calculate_normal_corner ramp_grid 2 2 2 (vecN 0 0 0 0) (vecN 0 0 0 1) (vecN 0 0 0 2))
      (calculate_normal_corner ramp_grid 2 2 2 (vecN 1 0 0 0) (vecN 1 0 0 1) (vecN 1 0 0 2)) (1/2)) ≠ 0 := by
    simp only [vecN_zero, vecN_one, vecN_two]
    rw [corner_normal_ramp_zero, corner_normal_ramp_one, lerp_unit_x, norm3_unit_x]
    norm_num
  exact C7_unit_normals ramp_grid 2 2 2 (vecN 0 0 0) (vecN 1 0 0) (1/2) 1 ha hn (Or.inl rfl)


/-- One 3-float write grows the buffer and the counter by 3. -/
theorem push3_length (st : List ℝ × ℕ) (v : Fin 3 → ℝ) :
    (push3 st v).1.length = st.1.length + 3 ∧ (push3 st v).2 = st.2 + 3 := by
  simp [push3]

/-- One triangle writes exactly 18 floats and advances the counter by 18. -/
theorem mc_emit_triangle_spec (grid : ℕ → ℕ → ℕ → ℝ) (isovalue : ℝ)
    (origin voxel_size : Fin 3 → ℝ) (max_x max_y max_z : ℕ)
    (i j k : ℕ) (prefactor : ℝ) (e1 e2 e3 : ℤ) (st : List ℝ × ℕ) :
    (mc_emit_triangle grid isovalue origin voxel_size max_x max_y max_z
      i j k prefactor e1 e2 e3 st).1.length = st.1.length + 18 ∧
    (mc_emit_triangle grid isovalue origin voxel_size max_x max_y max_z
      i j k prefactor e1 e2 e3 st).2 = st.2 + 18 := by
  rw [mc_emit_triangle]
  simp [push3]

/-- A table row writes 18 floats per emitted triangle. -/
theorem mc_process_row_spec (grid : ℕ → ℕ → ℕ → ℝ) (isovalue : ℝ)
    (origin voxel_size : Fin 3 → ℝ) (max_x max_y max_z : ℕ)
    (i j k : ℕ) (prefactor : ℝ) (row : List ℤ) :
    ∀ (fuel ei : ℕ) (st : List ℝ × ℕ),
    (mc_process_row
        (mc_emit_triangle grid isovalue origin voxel_size max_x max_y max_z
          i j k prefactor) row fuel ei st).1.length =
      st.1.length + 18 * mc_row_triangle_count row fuel ei ∧
    (mc_process_row
        (mc_emit_triangle grid isovalue origin voxel_size max_x max_y max_z
          i j k prefactor) row fuel ei st).2 =
      st.2 + 18 * mc_row_triangle_count row fuel ei
  | 0, ei, st => by simp [mc_process_row, mc_row_triangle_count]
  | fuel + 1, ei, st => by
      rw [mc_process_row, mc_row_triangle_count]
      by_cases h : row.getD (ei * 3) (-1) = -1
      · rw [if_pos h, if_pos h]
        simp
      · rw [if_neg h, if_neg h]
        rcases mc_process_row_spec grid isovalue origin voxel_size max_x max_y max_z
          i j k prefactor row fuel (ei + 1)
          (mc_emit_triangle grid isovalue origin voxel_size max_x max_y max_z
            i j k prefactor (row.getD (ei * 3) (-1)) (row.getD (ei * 3 + 1) (-1))
            (row.getD (ei * 3 + 2) (-1)) st) with ⟨hl, hc⟩
        rw [hl, hc]
        rcases mc_emit_triangle_spec grid isovalue origin voxel_size max_x max_y max_z
          i j k prefactor (row.getD (ei * 3) (-1)) (row.getD (ei * 3 + 1) (-1))
          (row.getD (ei * 3 + 2) (-1)) st with ⟨he1, he2⟩
        rw [he1, he2]
        constructor <;> ring

/-- The cell fold: buffer lengths and counters grow together, by 18 per triangle of each phase. -/
theorem mc_fold_spec (grid : ℕ → ℕ → ℕ → ℝ) (isovalue : ℝ)
    (origin voxel_size : Fin 3 → ℝ) (max_x max_y max_z : ℕ) :
    ∀ (L : List (ℕ × ℕ × ℕ)) (st : (List ℝ × ℕ) × (List ℝ × ℕ)),
    (L.foldl (mc_cell_step grid isovalue origin voxel_size max_x max_y max_z) st).1.1.length =
      st.1.1.length + 18 * (L.map fun c =>
        mc_row_triangle_count
          (mc_get_edges isovalue (mc_voxel_values grid c.1 c.2.1 c.2.2)).1 5 0).sum ∧
    (L.foldl (mc_cell_step grid isovalue origin voxel_size max_x max_y max_z) st).1.2 =
      st.1.2 + 18 * (L.map fun c =>
        mc_row_triangle_count
          (mc_get_edges isovalue (mc_voxel_values grid c.1 c.2.1 c.2.2)).1 5 0).sum ∧
    (L.foldl (mc_cell_step grid isovalue origin voxel_size max_x max_y max_z) st).2.1.length =
      st.2.1.length + 18 * (L.map fun c =>
        mc_row_triangle_count
          (mc_get_edges isovalue (mc_voxel_values grid c.1 c.2.1 c.2.2)).2 5 0).sum ∧
    (L.foldl (mc_cell_step grid isovalue origin voxel_size max_x max_y max_z) st).2.2 =
      st.2.2 + 18 * (L.map fun c =>
        mc_row_triangle_count
          (mc_get_edges isovalue (mc_voxel_values grid c.1 c.2.1 c.2.2)).2 5 0).sum
  | [], st => by simp
  | c :: rest, st => by
      rw [List.foldl_cons, List.map_cons, List.map_cons, List.sum_cons, List.sum_cons]
      rcases mc_fold_spec grid isovalue origin voxel_size max_x max_y max_z rest
        (mc_cell_step grid isovalue origin voxel_size max_x max_y max_z st c) with
        ⟨h1, h2, h3, h4⟩
      rw [h1, h2, h3, h4]
      rcases mc_process_row_spec grid isovalue origin voxel_size max_x max_y max_z
        c.1 c.2.1 c.2.2 1
        (mc_get_edges isovalue (mc_voxel_values grid c.1 c.2.1 c.2.2)).1 5 0 st.1 with
        ⟨hp1, hp2⟩
      rcases mc_process_row_spec grid isovalue origin voxel_size max_x max_y max_z
        c.1 c.2.1 c.2.2 (-1)
        (mc_get_edges isovalue (mc_voxel_values grid c.1 c.2.1 c.2.2)).2 5 0 st.2 with
        ⟨hq1, hq2⟩
      rw [mc_cell_step]
      refine ⟨?_, ?_, ?_, ?_⟩
      · rw [hp1]; ring
      · rw [hp2]; ring
      · rw [hq1]; ring
      · rw [hq2]; ring

/-- C10: after marching_cubes, each phase sentinel (the running vertices_count the source stores into the last buffer slot) equals the number of float entries written into that phase buffer, which is 18 times the number of triangles emitted for the phase: three vertices per triangle, each 3 position floats followed by 3 normal floats. -/
theorem C10_sentinel_float_count (grid : ℕ → ℕ → ℕ → ℝ) (isovalue : ℝ)
    (origin voxel_size : Fin 3 → ℝ) (voxel_number : Fin 3 → ℤ) :
    (marching_cubes grid isovalue origin voxel_size voxel_number).1.2 =
      (marching_cubes grid isovalue origin voxel_size voxel_number).1.1.length ∧
    (marching_cubes grid isovalue origin voxel_size voxel_number).1.2 =
      18 * mc_total_triangles_1 grid isovalue voxel_number ∧
    (marching_cubes grid isovalue origin voxel_size voxel_number).2.2 =
      (marching_cubes grid isovalue origin voxel_size voxel_number).2.1.length ∧
    (marching_cubes grid isovalue origin voxel_size voxel_number).2.2 =
      18 * mc_total_triangles_2 grid isovalue voxel_number := by
  rcases mc_fold_spec grid isovalue origin voxel_size
    (voxel_number 0).toNat (voxel_number 1).toNat (voxel_number 2).toNat
    (mc_cells voxel_number) (([], 0), ([], 0)) with ⟨h1, h2, h3, h4⟩
  rw [marching_cubes, mc_total_triangles_1, mc_total_triangles_2]
  rw [h1, h2, h3, h4]
  simp


/-- C8 amended: with any non-positive voxel count the sampling loops execute zero iterations and leave the grid untouched, and counts that are zero but not negative produce an empty (untouched all-zero) grid without error; a negative count instead fails at the numpy allocation (negative dimensions are rejected), so generate_voxel_grid does not return an empty grid there. -/
theorem C8_empty_grid (origin : Fin 3 → ℝ) (voxel_size : Fin 3 → Fin 3 → ℝ)
    (voxel_count : Fin 3 → ℤ)
    (orbital_position : ℕ → Fin 3 → ℝ)
    (orbital_coefficients orbital_exponents orbital_norms : ℕ → List ℝ)
    (shells : List ℕ) (mo_coeff : ℕ → ℝ) (cut_off_distances : ℕ → ℝ)
    (grid0 : ℕ × ℕ × ℕ → ℝ)
    (h : voxel_count 0 ≤ 0 ∨ voxel_count 1 ≤ 0 ∨ voxel_count 2 ≤ 0) :
    voxel_grid_loops (voxel_size 0) (voxel_size 1) (voxel_size 2)
      (voxel_count 0) (voxel_count 1) (voxel_count 2) origin
      orbital_position orbital_coefficients orbital_exponents orbital_norms
      shells mo_coeff cut_off_distances grid0 = grid0 ∧
    ((0 ≤ voxel_count 0 ∧ 0 ≤ voxel_count 1 ∧ 0 ≤ voxel_count 2) →
      generate_voxel_grid origin voxel_size voxel_count orbital_position
        orbital_coefficients orbital_exponents orbital_norms shells mo_coeff
        cut_off_distances = Except.ok (fun _ => 0)) := by
  have hloops : ∀ g0 : ℕ × ℕ × ℕ → ℝ,
      voxel_grid_loops (voxel_size 0) (voxel_size 1) (voxel_size 2)
        (voxel_count 0) (voxel_count 1) (voxel_count 2) origin
        orbital_position orbital_coefficients orbital_exponents orbital_norms
        shells mo_coeff cut_off_distances g0 = g0 := by
    intro g0
    funext p
    rw [voxel_grid_loops, voxel_fold_i_lookup]
    rw [if_neg (by omega)]
  refine ⟨hloops grid0, fun hpos => ?_⟩
  rw [generate_voxel_grid, if_neg (by omega)]
  rw [hloops]

/-- Witness for C8 at voxel counts (0, 0, 0). -/
theorem C8_empty_grid_witness :
    voxel_grid_loops ((fun _ _ => (0:ℝ)) 0) ((fun _ _ => (0:ℝ)) 1) ((fun _ _ => (0:ℝ)) 2)
      ((fun _ => (0:ℤ)) 0) ((fun _ => (0:ℤ)) 1) ((fun _ => (0:ℤ)) 2) (fun _ => 0)
      (fun _ => vec3 0 0 0) (fun _ => []) (fun _ => []) (fun _ => [])
      [] (fun _ => 0) (fun _ => 0) (fun _ => 1) = (fun _ => 1) ∧
    ((0 ≤ ((fun _ => (0:ℤ)) 0) ∧ 0 ≤ ((fun _ => (0:ℤ)) 1) ∧ 0 ≤ ((fun _ => (0:ℤ)) 2)) →
      generate_voxel_grid (fun _ => 0) (fun _ _ => 0) (fun _ => 0)
        (fun _ => vec3 0 0 0) (fun _ => []) (fun _ => []) (fun _ => [])
        [] (fun _ => 0) (fun _ => 0) = Except.ok (fun _ => 0)) :=
  C8_empty_grid (fun _ => 0) (fun _ _ => 0) (fun _ => 0)
    (fun _ => vec3 0 0 0) (fun _ => []) (fun _ => []) (fun _ => [])
    [] (fun _ => 0) (fun _ => 0) (fun _ => 1) (Or.inl (by norm_num))

/-- C8 counterexample: a voxel count of -1 makes generate_voxel_grid raise at the numpy allocation rather than return an empty grid. -/
theorem C8_negative_count_counterexample :
    generate_voxel_grid (fun _ => 0) (fun _ _ => 0)
      (fun l => if l = 0 then -1 else 2)
      (fun _ => vec3 0 0 0) (fun _ => []) (fun _ => []) (fun _ => [])
      [] (fun _ => 0) (fun _ => 0) =
    Except.error "negative dimensions are not allowed" := by
  rw [generate_voxel_grid, if_pos]
  norm_num

/-- Witness for C9 at isovalue 1 and all-zero corner values. -/
theorem C9_phase_bits_disjoint_witness :
    mc_triangle_table_index_1 1 (fun _ => 0) &&& mc_triangle_table_index_2 1 (fun _ => 0) = 0 ∧
    ms_line_table_index_1 1 (fun _ => 0) &&& ms_line_table_index_2 1 (fun _ => 0) = 0 :=
  C9_phase_bits_disjoint 1 (by norm_num) (fun _ => 0) (fun _ => 0)

/-- Witness for C1 at voxel counts (1, 1, 1), cell (0, 0, 0) and an empty shell list. -/
theorem C1_voxel_grid_cell_witness :
    voxel_grid_loops ((fun _ _ => (0:ℝ)) 0) ((fun _ _ => (0:ℝ)) 1) ((fun _ _ => (0:ℝ)) 2)
      ((fun _ => (1:ℤ)) 0) ((fun _ => (1:ℤ)) 1) ((fun _ => (1:ℤ)) 2) (fun _ => 0)
      (fun _ => vec3 0 0 0) (fun _ => []) (fun _ => []) (fun _ => [])
      [] (fun _ => 0) (fun _ => 0) (fun _ => 0) (0, 0, 0) =
      calculate_mo_cartesian
        (fun l => ((fun _ => (0:ℝ)) l + (fun _ _ => (0:ℝ)) 0 l * (0:ℕ) +
          (fun _ _ => (0:ℝ)) 1 l * (0:ℕ) + (fun _ _ => (0:ℝ)) 2 l * (0:ℕ)) * ANGSTROM_TO_BOHR)
        (fun _ => vec3 0 0 0) (fun _ => []) (fun _ => []) (fun _ => [])
        [] (fun _ => 0) (fun _ => 0) :=
  C1_voxel_grid_cell (fun _ => 0) (fun _ _ => 0) (fun _ => 1)
    (fun _ => vec3 0 0 0) (fun _ => []) (fun _ => []) (fun _ => [])
    [] (fun _ => 0) (fun _ => 0)
    (by norm_num) (by norm_num) (by norm_num) 0 0 0
    (by norm_num) (by norm_num) (by norm_num) _
    (by rw [generate_voxel_grid, if_neg (by norm_num)])


end Molara
